import Mathlib

/-!
Verification development for the x-agent content pipeline.

This file gives a shallow embedding of the core subsystems of the
repository — the policy engine (`src/app/agents/policy.py`), the
persistence/repository layer (`src/infrastructure/db/repositories.py`),
the orchestrator's approve / skip / start-run flows
(`src/app/orchestrator.py`) and the publish coordinator — and proves
properties of those definitions.

Conventions of the embedding:
* Python `datetime` instants are modelled as `Int` epoch seconds (all
  stored timestamps in the code are UTC-aware).
* Python `float` scores are modelled as exact rationals `ℚ`; the scores
  computed by the code are ratios of small integers, where binary
  floating point and exact rationals agree on every comparison performed.
* Fallible code is modelled with `Option`/`Except`; a Python function
  that catches all exceptions and returns a default is modelled by the
  corresponding total function.
* SHA-256 hashing of bearer tokens is kept abstract: the repository uses
  the hash only as an opaque key, so the embedding passes the hash
  function `h : String → String` as a parameter.
-/

/-! ## Python string primitives -/

/-- Python `str.lower()` restricted to the ASCII range used by the code. -/
def pyLower (s : String) : String :=
  String.mk (s.toList.map Char.toLower)

/-- A regex word character `[A-Za-z0-9_]` (Python `\w` over ASCII). -/
def isWordChar (c : Char) : Bool :=
  c.isAlphanum || c = '_'

/-- `needle.isPrefixOf (hay.drop i)` for some `i`: Python `needle in hay`. -/
def listContainsSub (needle hay : List Char) : Bool :=
  (List.range (hay.length + 1)).any fun i => needle.isPrefixOf (hay.drop i)

/-- Python substring test `needle in hay`. -/
def strContains (hay needle : String) : Bool :=
  listContainsSub needle.toList hay.toList

/-- Python whitespace, as stripped by `str.strip()`. -/
def isPyWhitespace (c : Char) : Bool :=
  c = ' ' || c = '\t' || c = '\n' || c = '\r' || c = '\x0b' || c = '\x0c'

/-- Python `str.strip()` (whitespace at both ends). -/
def pyStrip (s : String) : String :=
  String.mk (((s.toList.dropWhile isPyWhitespace).reverse.dropWhile isPyWhitespace).reverse)

/-- Split on separator characters, keeping empty pieces like `re.split`. -/
def splitChars (p : Char → Bool) : List Char → List (List Char)
  | [] => [[]]
  | c :: rest =>
    let r := splitChars p rest
    if p c then [] :: r
    else
      match r with
      | h :: t => (c :: h) :: t
      | [] => [[c]]

/-- Python `re.split` on a character class. -/
def pySplit (p : Char → Bool) (s : String) : List String :=
  (splitChars p s.toList).map fun cs => String.mk cs

/-- Python truthiness of a string: non-empty. -/
def strTruthy (s : String) : Bool :=
  s ≠ ""

/-- Python truthiness of an optional string. -/
def optStrTruthy : Option String → Bool
  | none => false
  | some s => strTruthy s

/-- Python truthiness of an optional list. -/
def optListTruthy : Option (List α) → Bool
  | none => false
  | some l => !l.isEmpty

/-- Python slice `s[:n]`. -/
def strTake (n : Nat) (s : String) : String :=
  String.mk (s.toList.take n)

/-! ## Tokenisation and Jaccard similarity (policy.py `_tokenize` / `_jaccard`) -/

/-- Split a character list into the maximal runs of characters satisfying
`p` (the matches of the regex `p+`), accumulator style. -/
def charRunsAux (p : Char → Bool) : List Char → List Char → List (List Char) → List (List Char)
  | [], cur, acc => if cur.isEmpty then acc else acc ++ [cur.reverse]
  | c :: rest, cur, acc =>
    if p c then charRunsAux p rest (c :: cur) acc
    else charRunsAux p rest [] (if cur.isEmpty then acc else acc ++ [cur.reverse])

/-- All maximal runs of characters satisfying `p`: `re.findall(p+, s)`. -/
def charRuns (p : Char → Bool) (cs : List Char) : List (List Char) :=
  charRunsAux p cs [] []

/-- policy.py `_tokenize`, before forming the set: the words
`re.findall(r"[A-Za-z0-9_]+", text.lower())` of length ≥ 3. -/
def pyTokenizeList (text : String) : List String :=
  ((charRuns isWordChar (pyLower text).toList).map fun cs => String.mk cs).filter
    fun w => 3 ≤ w.length

/-- policy.py `_tokenize`: the set of lowercased word tokens of length ≥ 3. -/
def pyTokenize (text : String) : Finset String :=
  (pyTokenizeList text).toFinset

/-- policy.py `_jaccard` over token sets, with Python floats modelled as `ℚ`. -/
def jaccard (a b : Finset String) : ℚ :=
  if a = ∅ ∨ b = ∅ then 0
  else
    let inter : Nat := (a ∩ b).card
    let union : Nat := (a ∪ b).card
    if union = 0 then 0 else mkRat (inter : Int) union

/-! ## Formatting helpers used by policy details strings -/

/-- Approximation of Python's `f"{x:.2f}"` on the scores computed by the
policy engine: the rational rounded to two decimal places (half away from
zero; the details strings are informational and no theorem depends on
them). -/
def fmt2 (q : ℚ) : String :=
  let cents : Int := ⌊q * 100 + 1/2⌋
  let whole := cents / 100
  let frac := (cents % 100).toNat
  let fracStr := if frac < 10 then "0" ++ toString frac else toString frac
  toString whole ++ "." ++ fracStr

/-- Insert `x` before the first element `y` with `le x y` — the helper of
a stable insertion sort. -/
def insertLe (le : α → α → Bool) (x : α) : List α → List α
  | [] => [x]
  | y :: ys => if le x y then x :: y :: ys else y :: insertLe le x ys

/-- A stable sort by the boolean relation `le`, modelling Python's stable
`sorted` / `list.sort`. -/
def pySort (le : α → α → Bool) : List α → List α
  | [] => []
  | x :: xs => insertLe le x (pySort le xs)

/-- Python `sorted(set(xs))` for strings (code-point order). -/
def sortedSet (xs : List String) : List String :=
  pySort (fun a b => decide (a ≤ b)) xs.dedup

/-! ## Policy data model (app/models.py / domain/models.py) -/

/-- models.py `EvidenceItem`. -/
structure EvidenceItem where
  source_name : String
  source_id : String
  timestamp : Int
  raw_snippet : String
  title : Option String := none
  url : Option String := none
deriving Repr, DecidableEq

/-- models.py `Materials`. -/
structure Materials where
  git_commits : List EvidenceItem := []
  devlog : Option EvidenceItem := none
  notes : List EvidenceItem := []
  links : List EvidenceItem := []
  errors : List String := []
deriving Repr, DecidableEq

/-- models.py `EvidenceRef`. -/
structure EvidenceRef where
  source_name : String
  source_id : String
  quote : String
deriving Repr, DecidableEq

/-- models.py `StyleProfile`. -/
structure StyleProfile where
  preferred_openers : List String := []
  forbidden_phrases : List String := []
  sentence_length_preference : String := "short"
  tone_rules : List String := []
  formatting_rules : List String := []
deriving Repr, DecidableEq

/-- models.py `TopicPlan` (evidence map omitted: unused by the embedded flows). -/
structure TopicPlan where
  topic_bucket : Int
  angles : List String
  key_points : List String
deriving Repr, DecidableEq

/-- models.py `ThreadPlan`. -/
structure ThreadPlan where
  enabled : Bool
  tweets_count : Int
  numbering_enabled : Bool := true
  reason : String := ""
deriving Repr, DecidableEq

/-- models.py `DraftCandidate`. -/
structure DraftCandidate where
  mode : String
  text : Option String := none
  tweets : Option (List String) := none
deriving Repr, DecidableEq

/-- models.py `DraftCandidates`. -/
structure DraftCandidates where
  candidates : List DraftCandidate
deriving Repr, DecidableEq

/-- models.py `EditedDraft`. -/
structure EditedDraft where
  mode : String
  selected_candidate_index : Int := 0
  original : DraftCandidate
  final_text : Option String := none
  final_tweets : Option (List String) := none
  numbering_added : Bool := false
  edit_notes : String := ""
deriving Repr, DecidableEq

/-- models.py `PolicyCheckResult`. -/
structure PolicyCheckResult where
  check_name : String
  passed : Bool
  details : String
deriving Repr, DecidableEq

/-- models.py `PolicyReport`; the evidence map (a Python insertion-ordered
dict) is modelled as an association list. -/
structure PolicyReport where
  checks : List PolicyCheckResult
  risk_level : String
  action : String
  claims : List String := []
  evidence_map : List (String × List EvidenceRef) := []
  unsupported_claims : List String := []
  offending_spans : List String := []
deriving Repr, DecidableEq

/-! ## Policy checks (policy.py) -/

/-- policy.py `_edited_to_tweets`. -/
def editedToTweets (edited : EditedDraft) : List String :=
  if edited.mode = "thread" ∧ optListTruthy edited.final_tweets then
    ((edited.final_tweets.getD []).map pyStrip).filter strTruthy
  else if optStrTruthy edited.final_text then
    [pyStrip (edited.final_text.getD "")]
  else []

/-- policy.py `_check_length`: fails when any tweet exceeds 280 characters. -/
def checkLength (tweets : List String) : Bool × String :=
  let bad := ((tweets.enumFrom 1).filter fun it => 280 < it.2.length).map
    fun it => toString it.1 ++ ":" ++ toString it.2.length
  (bad.isEmpty, if bad.isEmpty then "ok" else "too_long=" ++ String.intercalate ";" bad)

/-- policy.py `_check_blocked_terms`: case-insensitive substring match of
any blocked term. -/
def checkBlockedTerms (tweets blocked_terms : List String) : Bool × List String :=
  let hits := tweets.flatMap fun t =>
    blocked_terms.filter fun term => strTruthy term && strContains (pyLower t) term
  (hits.isEmpty, sortedSet hits)

/-- policy.py `_check_similarity` inner loop over recent posts: returns the
first score at or above the threshold (early return) and the running max. -/
def simInner (tset : Finset String) (threshold : ℚ) :
    List String → ℚ → Option ℚ × ℚ
  | [], worst => (none, worst)
  | p :: rest, worst =>
    let score := jaccard tset (pyTokenize p)
    let worst' := max worst score
    if threshold ≤ score then (some score, worst') else simInner tset threshold rest worst'

/-- policy.py `_check_similarity` outer loop over candidate tweets. -/
def simOuter (recent : List String) (threshold : ℚ) :
    List String → ℚ → Option ℚ × ℚ
  | [], worst => (none, worst)
  | t :: rest, worst =>
    match simInner (pyTokenize t) threshold recent worst with
    | (some s, w) => (some s, w)
    | (none, w) => simOuter recent threshold rest w

/-- policy.py `_check_similarity`: fails when the max Jaccard similarity of
a candidate tweet against any recent post reaches the threshold. -/
def checkSimilarity (tweets recent : List String) (threshold : ℚ) : Bool × String :=
  if recent.isEmpty then (true, "no_recent_posts")
  else
    match simOuter recent threshold tweets 0 with
    | (some s, _) => (false, "jaccard=" ++ fmt2 s ++ ">=threshold")
    | (none, worst) => (true, "max_jaccard=" ++ fmt2 worst)

/-- policy.py `_check_thread_markers`: in single mode, no tweet may contain
`"1/"` or `"/1"`. -/
def checkThreadMarkers (edited : EditedDraft) (tweets : List String) : Bool × String :=
  if edited.mode = "thread" then (true, "thread_allowed")
  else
    let markers := tweets.filter fun t => strContains t "1/" || strContains t "/1"
    (markers.isEmpty, if markers.isEmpty then "ok" else "thread_marker_in_single")

/-- policy.py `_contains_emoji`: any char in U+1F300..U+1FAFF. -/
def containsEmoji (text : String) : Bool :=
  text.toList.any fun c => 0x1F300 ≤ c.toNat && c.toNat ≤ 0x1FAFF

/-- policy.py `_is_exaggerated`. -/
def isExaggerated (text : String) : Bool :=
  let low := pyLower text
  ["insane", "unbelievable", "guarantee", "always", "never", "massive"].any
    fun p => strContains low p

/-- The hard-coded marketing phrases of policy.py `_check_tone`. -/
def marketingPhrases : List String :=
  ["game changer", "revolutionary", "explosive growth", "world changing"]

/-- policy.py `_check_tone`: hashtags, emoji, forbidden phrases and
exaggeration markers all fail the check.  The Python code iterates a set
union of the style's forbidden phrases and the marketing list; membership
and the sorted-deduplicated hits are order-independent, so the set is
modelled as list concatenation. -/
def checkTone (tweets : List String) (style : StyleProfile) : Bool × String :=
  let forbidden := style.forbidden_phrases.map pyLower ++ marketingPhrases
  if tweets.any fun t => strContains t "#" then (false, "hashtags_not_allowed")
  else if tweets.any containsEmoji then (false, "emoji_not_allowed")
  else
    let hits := tweets.flatMap fun t =>
      forbidden.filter fun phrase => strTruthy phrase && strContains (pyLower t) phrase
    if !hits.isEmpty then
      (false, "forbidden_phrases=" ++ String.intercalate "," ((sortedSet hits).take 10))
    else if tweets.any isExaggerated then (false, "exaggeration_detected")
    else (true, "ok")

/-! ## A small regex matcher for the leakage patterns (policy.py
`_check_sensitive_leakage`)

The six leakage regexes are sequences of literals, bounded character-class
repetitions and word boundaries.  `rmatch` is an existential backtracking
matcher over such sequences: it returns true exactly when some split of
the text matches, which coincides with Python `re.findall(...) ≠ []`. -/

/-- One item of a leakage pattern: a literal, a character class repeated
between `min` and `max` times (`none` = unbounded), or a boundary `\b`. -/
inductive RItem where
  | lit : List Char → RItem
  | cls : (Char → Bool) → Nat → Option Nat → RItem
  | bnd : RItem

/-- Whether the character at a position (or the edge of the string) is a
word character, for `\b` semantics. -/
def isWordCharOpt : Option Char → Bool
  | none => false
  | some c => isWordChar c

/-- Backtracking matcher: does `items` match a prefix of `text`, given the
character `prev` just before the current position? -/
def rmatch : List RItem → Option Char → List Char → Bool
  | [], _, _ => true
  | .bnd :: rest, prev, text =>
    (isWordCharOpt prev != isWordCharOpt text.head?) && rmatch rest prev text
  | .lit s :: rest, prev, text =>
    s.isPrefixOf text && rmatch rest (if s.isEmpty then prev else s.getLast?) (text.drop s.length)
  | .cls p mn mx :: rest, _prev, text =>
    let cap := match mx with
      | some m => min m text.length
      | none => text.length
    (List.range (cap + 1)).any fun k =>
      decide (mn ≤ k) && (text.take k).all p &&
        rmatch rest (if k = 0 then _prev else (text.take k).getLast?) (text.drop k)

/-- `re.search` over all start positions: some suffix of `text` matches. -/
def rsearch (items : List RItem) (text : List Char) : Bool :=
  (List.range (text.length + 1)).any fun i =>
    rmatch items (if i = 0 then none else text.get? (i - 1)) (text.drop i)

/-- Character class `[A-Za-z0-9_-]` of the JWT pattern. -/
def jwtChar (c : Char) : Bool :=
  c.isAlphanum || c = '_' || c = '-'

/-- `\beyJ[A-Za-z0-9_-]{10,}\.[A-Za-z0-9_-]{10,}\.[A-Za-z0-9_-]{10,}\b` -/
def reJWT : List RItem :=
  [.bnd, .lit "eyJ".toList, .cls jwtChar 10 none, .lit ['.'], .cls jwtChar 10 none,
   .lit ['.'], .cls jwtChar 10 none, .bnd]

/-- `\bsk-[A-Za-z0-9]{20,}\b` -/
def reSk : List RItem :=
  [.bnd, .lit "sk-".toList, .cls Char.isAlphanum 20 none, .bnd]

/-- Character class `[0-9A-Z]` of the AWS access-key pattern. -/
def awsChar (c : Char) : Bool :=
  c.isDigit || ('A' ≤ c && c ≤ 'Z')

/-- `\bAKIA[0-9A-Z]{16}\b` -/
def reAkia : List RItem :=
  [.bnd, .lit "AKIA".toList, .cls awsChar 16 (some 16), .bnd]

/-- Character class `[a-f0-9]` of the long-hex pattern. -/
def hexChar (c : Char) : Bool :=
  c.isDigit || ('a' ≤ c && c ≤ 'f')

/-- `\b[a-f0-9]{40,}\b` (applied to the lowercased text) -/
def reLongHex : List RItem :=
  [.bnd, .cls hexChar 40 none, .bnd]

/-- Character class `[A-Za-z0-9+/]` of the base64 pattern. -/
def b64Char (c : Char) : Bool :=
  c.isAlphanum || c = '+' || c = '/'

/-- `\b[A-Za-z0-9+/]{40,}={0,2}\b` -/
def reLongB64 : List RItem :=
  [.bnd, .cls b64Char 40 none, .cls (fun c => c = '=') 0 (some 2), .bnd]

/-- policy.py `_check_sensitive_leakage` over the joined tweets. -/
def checkLeakage (tweets : List String) : Bool × List String :=
  let joined := String.intercalate "\n" tweets
  let hits : List String :=
    (if strContains (pyLower joined) "-----begin private key-----" then ["private_key_block"] else []) ++
    (if rsearch reJWT joined.toList then ["jwt"] else []) ++
    (if rsearch reSk joined.toList then ["api_key_like"] else []) ++
    (if rsearch reAkia joined.toList then ["aws_access_key_id"] else []) ++
    (if rsearch reLongHex (pyLower joined).toList then ["long_hex_token"] else []) ++
    (if rsearch reLongB64 joined.toList then ["long_base64_token"] else [])
  (hits.isEmpty, sortedSet hits)

/-! ## Claim extraction and evidence mapping (policy.py) -/

/-- policy.py `_looks_like_opinion`. -/
def looksLikeOpinion (sentence : String) : Bool :=
  let low := pyLower sentence
  ["i think", "i feel", "my take", "opinion", "i learned", "lesson"].any
    fun m => strContains low m

/-- policy.py `_extract_claims`, deterministic path.  The optional LLM
path (`POLICY_LLM_CLAIMS_ENABLED`, default false) silently falls back to
this splitter on any error and is not modelled. -/
def extractClaims (tweets : List String) : List String :=
  (tweets.flatMap fun t =>
    ((pySplit (fun c => c = '\n' || c = '.' || c = '!' || c = '?') t).map pyStrip).filter
      fun s => strTruthy s && !looksLikeOpinion s && decide (4 ≤ (pyTokenize s).card)).take 20

/-- policy.py `_materials_evidence`. -/
def materialsEvidence (materials : Materials) : List EvidenceItem :=
  materials.git_commits ++
    (match materials.devlog with
      | some d => [d]
      | none => []) ++
    materials.notes ++ materials.links

/-- policy.py `_map_evidence` body for one claim: score all evidence items,
keep positive scores, sort descending (stably, like Python `list.sort` with
`reverse=True`), keep the top two with score ≥ 0.2. -/
def evidenceForClaim (claim : String) (items : List EvidenceItem) :
    List (ℚ × EvidenceItem) :=
  let cset := pyTokenize claim
  let scored := items.filterMap fun item =>
    let score := jaccard cset (pyTokenize item.raw_snippet)
    if 0 < score then some (score, item) else none
  let sorted := pySort (fun a b => decide (b.1 ≤ a.1)) scored
  (sorted.take 2).filter fun s => decide (mkRat 1 5 ≤ s.1)

/-- policy.py `_map_evidence`. -/
def mapEvidence (claims : List String) (materials : Materials) :
    List (String × List EvidenceRef) × List String :=
  let items := materialsEvidence materials
  claims.foldl
    (fun acc claim =>
      let top := evidenceForClaim claim items
      if top.isEmpty then (acc.1, acc.2 ++ [claim])
      else
        (acc.1 ++ [(claim, top.map fun s =>
          { source_name := s.2.source_name
            source_id := s.2.source_id
            quote := strTake 180 s.2.raw_snippet : EvidenceRef })], acc.2))
    ([], [])

/-! ## Action/risk resolution and the policy run (policy.py) -/

/-- policy.py `_decide_action`: dispatch on the set of failing check names.
Note that `thread_marker_ok` is absent from the REWRITE line, so a failure
set containing only `thread_marker_ok` falls through to `("HOLD", "HIGH")`. -/
def decideAction (failures : List PolicyCheckResult) : String × String :=
  let inNames := fun (n : String) => failures.any fun f => f.check_name = n
  if inNames "sensitive_ok" then ("HOLD", "HIGH")
  else if inNames "leakage_ok" then ("HOLD", "HIGH")
  else if inNames "fact_grounded_ok" then ("REWRITE", "HIGH")
  else if inNames "length_ok" || inNames "similarity_ok" || inNames "tone_ok" then
    ("REWRITE", "MEDIUM")
  else ("HOLD", "HIGH")

/-- policy.py `PolicyAgent.run`.  The blocked-terms list and the
similarity threshold are read from configuration in the source
(`_load_blocked_terms`, `settings.SIMILARITY_THRESHOLD`); the embedding
takes them as parameters.  The source returns one of two report literals
(an early `PASS/LOW` return when no check failed, otherwise the
`_decide_action` verdict with the collected spans); here the two returns
are merged into one record whose fields select on `failures.isEmpty`,
which is the same function. -/
def policyRun (blockedTerms : List String) (threshold : ℚ)
    (edited : EditedDraft) (materials : Materials) (recentPosts : List String)
    (style : StyleProfile) : PolicyReport :=
  let tweets := editedToTweets edited
  let lengthR := checkLength tweets
  let sensitiveR := checkBlockedTerms tweets blockedTerms
  let leakageR := checkLeakage tweets
  let similarityR := checkSimilarity tweets recentPosts threshold
  let threadR := checkThreadMarkers edited tweets
  let toneR := checkTone tweets style
  let claims := extractClaims tweets
  let ev := mapEvidence claims materials
  let unsupported := ev.2
  let factOk := unsupported.isEmpty
  let checks : List PolicyCheckResult :=
    [ { check_name := "length_ok", passed := lengthR.1, details := lengthR.2 },
      { check_name := "sensitive_ok", passed := sensitiveR.1,
        details := if sensitiveR.1 then "none" else String.intercalate "," (sensitiveR.2.take 10) },
      { check_name := "leakage_ok", passed := leakageR.1,
        details := if leakageR.1 then "none" else String.intercalate "," (leakageR.2.take 10) },
      { check_name := "similarity_ok", passed := similarityR.1, details := similarityR.2 },
      { check_name := "thread_marker_ok", passed := threadR.1, details := threadR.2 },
      { check_name := "tone_ok", passed := toneR.1, details := toneR.2 },
      { check_name := "fact_grounded_ok", passed := factOk,
        details := if factOk then "all grounded"
          else "unsupported=" ++ toString unsupported.length } ]
  let offending :=
    (if sensitiveR.1 then [] else sensitiveR.2) ++
    (if leakageR.1 then [] else leakageR.2) ++
    (if unsupported.isEmpty then [] else unsupported.take 10)
  let failures := checks.filter fun c => !c.passed
  let ar := if failures.isEmpty then ("PASS", "LOW") else decideAction failures
  { checks := checks, risk_level := ar.2, action := ar.1, claims := claims
    evidence_map := ev.1
    unsupported_claims := if failures.isEmpty then [] else unsupported
    offending_spans := if failures.isEmpty then [] else offending }

/-! ## Datetime values and `_is_expired` (orchestrator.py)

The `expires_at` column of a draft may surface to `_is_expired` as an
aware datetime, a naive datetime, an ISO string (SQLite round-trips), or
an unexpected value such as `None`.  `PyDatetime` carries the wall-clock
reading (epoch seconds of the wall-clock fields read as UTC) and an
optional UTC offset; `PyVal` is the value actually stored. -/

/-- A Python `datetime`: wall-clock reading (as seconds since the epoch if
the wall clock were UTC) plus an optional `tzinfo` offset in seconds. -/
structure PyDatetime where
  wall : Int
  tzOffset : Option Int := none
deriving Repr, DecidableEq

/-- The instant a datetime denotes after `replace(tzinfo=UTC)` is applied
to naive values: aware datetimes subtract their offset, naive wall clocks
are read as UTC. -/
def pyInstant (dt : PyDatetime) : Int :=
  dt.wall - dt.tzOffset.getD 0

/-- A stored `expires_at` value as `_is_expired` may receive it. -/
inductive PyVal where
  | vNone : PyVal
  | vStr : String → PyVal
  | vDatetime : PyDatetime → PyVal
deriving Repr, DecidableEq

/-- Parse an exact-width decimal number. -/
def parseDigits (cs : List Char) : Option Nat :=
  if cs.isEmpty then none
  else cs.foldlM (fun acc c => if c.isDigit then some (acc * 10 + (c.toNat - 48)) else none) 0

/-- Gregorian leap year. -/
def isLeapYear (y : Int) : Bool :=
  (y % 4 = 0 && y % 100 ≠ 0) || y % 400 = 0

/-- Days in a month, for date validation. -/
def daysInMonth (y : Int) (m : Nat) : Nat :=
  if m = 2 then (if isLeapYear y then 29 else 28)
  else if m ∈ [4, 6, 9, 11] then 30 else 31

/-- Days since 1970-01-01 of a civil date (standard days-from-civil
formula over mathematical integer division). -/
def daysFromCivil (y : Int) (m d : Nat) : Int :=
  let y' : Int := if m ≤ 2 then y - 1 else y
  let era : Int := (y' - (if y' < 0 then 399 else 0)) / 400
  let yoe : Int := y' - era * 400
  let mp : Int := if 2 < m then (m : Int) - 3 else (m : Int) + 9
  let doy : Int := (153 * mp + 2) / 5 + (d : Int) - 1
  let doe : Int := yoe * 365 + yoe / 4 - yoe / 100 + doy
  era * 146097 + doe - 719468

/-- `datetime.fromisoformat` on the shapes of ISO strings the pipeline
writes: `YYYY-MM-DD`, optionally followed by `THH:MM:SS` (or a space
separator) and an optional `±HH:MM` offset.  Any other string fails, as
the Python call raises `ValueError` on malformed input. -/
def fromisoformat (s : String) : Option PyDatetime := do
  let cs := s.toList
  if cs.length < 10 then none
  else
    let y ← parseDigits (cs.take 4)
    if !(cs.get? 4 = some '-') then none else
    let m ← parseDigits ((cs.drop 5).take 2)
    if !(cs.get? 7 = some '-') then none else
    let d ← parseDigits ((cs.drop 8).take 2)
    if !(1 ≤ m ∧ m ≤ 12) then none else
    if !(1 ≤ d ∧ d ≤ daysInMonth (y : Int) m) then none else
    let dateSecs : Int := daysFromCivil (y : Int) m d * 86400
    let rest := cs.drop 10
    match rest with
    | [] => some { wall := dateSecs }
    | sep :: timeCs =>
      if !(sep = 'T' ∨ sep = ' ') then none else
      if timeCs.length < 8 then none else
      let hh ← parseDigits (timeCs.take 2)
      if !(timeCs.get? 2 = some ':') then none else
      let mi ← parseDigits ((timeCs.drop 3).take 2)
      if !(timeCs.get? 5 = some ':') then none else
      let ss ← parseDigits ((timeCs.drop 6).take 2)
      if !(hh < 24 ∧ mi < 60 ∧ ss < 60) then none else
      let wall : Int := dateSecs + (hh : Int) * 3600 + (mi : Int) * 60 + (ss : Int)
      match timeCs.drop 8 with
      | [] => some { wall := wall }
      | sign :: offCs =>
        if !(sign = '+' ∨ sign = '-') then none else
        if !(offCs.length = 5) then none else
        let oh ← parseDigits (offCs.take 2)
        if !(offCs.get? 2 = some ':') then none else
        let om ← parseDigits (offCs.drop 3)
        if !(oh < 24 ∧ om < 60) then none else
        let off : Int := (oh : Int) * 3600 + (om : Int) * 60
        some { wall := wall, tzOffset := some (if sign = '-' then -off else off) }

/-- orchestrator.py `_is_expired`: parses string values, interprets naive
timestamps as UTC, and returns `False` on any exception (unparseable
string, or a value such as `None` on which attribute access raises). -/
def isExpiredVal (now : Int) (v : PyVal) : Bool :=
  match v with
  | .vStr s =>
    match fromisoformat s with
    | none => false
    | some dt => decide (pyInstant dt < now)
  | .vDatetime dt => decide (pyInstant dt < now)
  | .vNone => false

/-! ## Database rows and state (infrastructure/db/models.py) -/

/-- db/models.py `Run` row. -/
structure RunRow where
  run_id : String
  source : String
  status : String
  created_at : Int
  finished_at : Option Int := none
  duration_ms : Option Int := none
  last_error : Option String := none
deriving Repr, DecidableEq

/-- db/models.py `Draft` row; JSON snapshot columns hold the embedded
model values directly. -/
structure DraftRow where
  id : String
  token : String
  run_id : String
  created_at : Int
  expires_at : PyVal
  status : String
  token_consumed : Bool
  consumed_at : Option Int := none
  thread_enabled : Bool
  thread_plan : Option ThreadPlan := none
  tweets_json : Option (List String) := none
  materials : Materials
  topic_plan : TopicPlan
  style_profile : StyleProfile
  candidates : DraftCandidates
  edited_draft : EditedDraft
  policy_report : PolicyReport
  final_text : String
  published_tweet_ids : Option (List String) := none
  last_error : Option String := none
  approval_idempotency_key : Option String := none
deriving Repr, DecidableEq

/-- db/models.py `Post` row. -/
structure PostRow where
  draft_id : String
  position : Nat
  tweet_id : String
  content : String
  posted_at : Int
  publish_idempotency_key : String
deriving Repr, DecidableEq

/-- db/models.py `PublishAttempt` row. -/
structure PublishAttemptRow where
  draft_id : String
  attempt : Nat
  owner : Option String := none
  status : String
  created_at : Int
  completed_at : Option Int := none
  last_error : Option String := none
deriving Repr, DecidableEq

/-- db/models.py `ActionToken` row; expiry timestamps are stored aware. -/
structure ActionTokenRow where
  draft_id : String
  action : String
  token_hash : String
  created_at : Int
  expires_at : Int
  one_time : Bool
  consumed_at : Option Int := none
deriving Repr, DecidableEq

/-- The mutable database state relevant to the embedded flows (the
`policy_reports` audit table stores one report per emission). -/
structure DB where
  runs : List RunRow := []
  drafts : List DraftRow := []
  posts : List PostRow := []
  publish_attempts : List PublishAttemptRow := []
  action_tokens : List ActionTokenRow := []
  policy_reports : List (String × PolicyReport) := []
deriving Repr, DecidableEq

/-! ## Repository functions (infrastructure/db/repositories.py) -/

/-- repositories.py `get_run`. -/
def get_run (db : DB) (runId : String) : Option RunRow :=
  db.runs.find? fun r => r.run_id = runId

/-- repositories.py `create_run`: no-op when the run already exists. -/
def create_run (db : DB) (runId source : String) (createdAt : Int) : DB :=
  if (get_run db runId).isSome then db
  else { db with runs := db.runs ++
    [{ run_id := runId, source := source, status := "running", created_at := createdAt }] }

/-- repositories.py `update_run_status`: no-op when the run is missing;
the error is truncated to 500 characters. -/
def update_run_status (db : DB) (runId status : String) (finishedAt : Int)
    (durationMs : Option Int) (lastError : Option String) : DB :=
  { db with runs := db.runs.map fun r =>
      if r.run_id = runId then
        { r with status := status, finished_at := some finishedAt, duration_ms := durationMs
                 last_error := lastError.map (strTake 500) }
      else r }

/-- repositories.py `get_draft`. -/
def get_draft (db : DB) (draftId : String) : Option DraftRow :=
  db.drafts.find? fun d => d.id = draftId

/-- Apply an update to the draft row with the given id. -/
def updateDraft (db : DB) (draftId : String) (f : DraftRow → DraftRow) : DB :=
  { db with drafts := db.drafts.map fun d => if d.id = draftId then f d else d }

/-- repositories.py `create_draft`: returns the existing row unchanged
when the id is already present, otherwise inserts the new draft together
with its initial `policy_reports` row. -/
def create_draft (db : DB) (runId draftId tokenHash : String)
    (createdAt expiresAt : Int) (status : String) (materials : Materials)
    (topicPlan : TopicPlan) (styleProfile : StyleProfile) (threadPlan : ThreadPlan)
    (candidates : DraftCandidates) (editedDraft : EditedDraft)
    (policyReport : PolicyReport) : DB × DraftRow :=
  match get_draft db draftId with
  | some existing => (db, existing)
  | none =>
    let tweetsJson := if editedDraft.mode = "thread" then editedDraft.final_tweets else none
    let finalText :=
      if optStrTruthy editedDraft.final_text then editedDraft.final_text.getD ""
      else if optListTruthy tweetsJson then (tweetsJson.getD []).headD "" else ""
    let d : DraftRow :=
      { id := draftId, token := tokenHash, run_id := runId, created_at := createdAt
        expires_at := .vDatetime { wall := expiresAt, tzOffset := some 0 }
        status := status, token_consumed := false
        thread_enabled := editedDraft.mode = "thread"
        thread_plan := some threadPlan, tweets_json := tweetsJson
        materials := materials, topic_plan := topicPlan, style_profile := styleProfile
        candidates := candidates, edited_draft := editedDraft
        policy_report := policyReport, final_text := finalText }
    ({ db with drafts := db.drafts ++ [d]
               policy_reports := db.policy_reports ++ [(draftId, policyReport)] }, d)

/-- repositories.py `mark_draft_consumed` as a row update. -/
def markDraftConsumed (now : Int) (status : String)
    (publishedTweetIds : Option (List String)) (approvalIdempotencyKey : Option String)
    (d : DraftRow) : DraftRow :=
  { d with status := status, token_consumed := true, consumed_at := some now
           published_tweet_ids := publishedTweetIds
           approval_idempotency_key := approvalIdempotencyKey }

/-- repositories.py `update_draft_texts` as a row update. -/
def updateDraftTexts (newTexts : List String) (d : DraftRow) : DraftRow :=
  if d.thread_enabled then
    let tweets := (newTexts.map pyStrip).filter strTruthy
    { d with tweets_json := some tweets, final_text := tweets.headD "" }
  else
    { d with final_text := pyStrip (newTexts.headD "") }

/-- repositories.py `update_draft_policy_report`: stores the report on the
draft, recomputes the status from the action, and appends an audit row. -/
def update_draft_policy_report (db : DB) (draftId : String) (report : PolicyReport) : DB :=
  let db1 := updateDraft db draftId fun d =>
    { d with policy_report := report
             status := if report.action = "PASS" then "pending" else "needs_human_attention" }
  { db1 with policy_reports := db1.policy_reports ++ [(draftId, report)] }

/-- repositories.py `mark_draft_skipped` as a row update. -/
def markDraftSkipped (now : Int) (d : DraftRow) : DraftRow :=
  { d with status := "skipped", token_consumed := true, consumed_at := some now }

/-- repositories.py `get_action_token`: lookup by `(action, sha256(raw))`,
with the hash function a parameter. -/
def get_action_token (db : DB) (h : String → String) (action raw : String) :
    Option ActionTokenRow :=
  db.action_tokens.find? fun r => r.action = action ∧ r.token_hash = h raw

/-- repositories.py `resolve_action_token`. -/
def resolve_action_token (db : DB) (h : String → String) (action raw : String)
    (now : Int) : Option DraftRow × Option ActionTokenRow × String :=
  match get_action_token db h action raw with
  | none => (none, none, "not_found")
  | some tokenRow =>
    if tokenRow.expires_at < now then (none, some tokenRow, "expired")
    else if tokenRow.one_time ∧ tokenRow.consumed_at.isSome then
      (none, some tokenRow, "consumed")
    else
      match get_draft db tokenRow.draft_id with
      | none => (none, some tokenRow, "not_found")
      | some draft => (some draft, some tokenRow, "ok")

/-- repositories.py `consume_action_token`: sets `consumed_at` only on a
one-time token that is not yet consumed (rows are keyed by their unique
`token_hash`). -/
def consume_action_token (db : DB) (tokenRow : ActionTokenRow) (now : Int) : DB :=
  if tokenRow.one_time ∧ tokenRow.consumed_at = none then
    { db with action_tokens := db.action_tokens.map fun r =>
        if r.token_hash = tokenRow.token_hash then { r with consumed_at := some now } else r }
  else db

/-- repositories.py `get_publish_attempt`. -/
def get_publish_attempt (db : DB) (draftId : String) (attempt : Nat) :
    Option PublishAttemptRow :=
  db.publish_attempts.find? fun a => a.draft_id = draftId ∧ a.attempt = attempt

/-- repositories.py `try_start_publish_attempt`: the insert succeeds unless
a row with the same `(draft_id, attempt)` exists (the unique constraint);
on conflict the existing row is re-read and returned. -/
def try_start_publish_attempt (db : DB) (draftId : String) (attempt : Nat)
    (owner : Option String) (now : Int) : (Bool × Option PublishAttemptRow) × DB :=
  match get_publish_attempt db draftId attempt with
  | some existing => ((false, some existing), db)
  | none =>
    let row : PublishAttemptRow :=
      { draft_id := draftId, attempt := attempt, owner := owner
        status := "started", created_at := now }
    ((true, some row), { db with publish_attempts := db.publish_attempts ++ [row] })

/-- repositories.py `mark_publish_attempt_completed`, keyed by
`(draft_id, attempt)`. -/
def mark_publish_attempt_completed (db : DB) (draftId : String) (attempt : Nat)
    (now : Int) : DB :=
  { db with publish_attempts := db.publish_attempts.map fun a =>
      if a.draft_id = draftId ∧ a.attempt = attempt then
        { a with status := "completed", completed_at := some now, last_error := none }
      else a }

/-- repositories.py `mark_publish_attempt_failed`, keyed by
`(draft_id, attempt)`. -/
def mark_publish_attempt_failed (db : DB) (draftId : String) (attempt : Nat)
    (error : String) (now : Int) : DB :=
  { db with publish_attempts := db.publish_attempts.map fun a =>
      if a.draft_id = draftId ∧ a.attempt = attempt then
        { a with status := "failed", completed_at := some now
                 last_error := some (strTake 500 error) }
      else a }

/-- repositories.py `insert_post_idempotent`: the insert is dropped when it
would violate any of the unique constraints `(draft_id, position)`,
`tweet_id`, or `publish_idempotency_key`. -/
def insert_post_idempotent (db : DB) (draftId : String) (position : Nat)
    (tweetId content key : String) (now : Int) : DB :=
  if db.posts.any fun p =>
      (p.draft_id = draftId ∧ p.position = position) ∨ p.tweet_id = tweetId ∨
        p.publish_idempotency_key = key then db
  else { db with posts := db.posts ++
    [{ draft_id := draftId, position := position, tweet_id := tweetId
       content := content, posted_at := now, publish_idempotency_key := key }] }

/-- repositories.py `get_existing_thread_posts` as a position lookup. -/
def existingThreadPost (db : DB) (draftId : String) (position : Nat) : Option String :=
  ((db.posts.filter fun p => p.draft_id = draftId).find? fun p => p.position = position).map
    fun p => p.tweet_id

/-- repositories.py `get_recent_posts`: contents of posts newer than the
cutoff, newest first, truthy only, at most `limit`. -/
def get_recent_posts (db : DB) (now : Int) (days : Nat := 14) (limit : Nat := 200) :
    List String :=
  let cutoff := now - (days : Int) * 86400
  (((pySort (fun a b => decide (b.posted_at ≤ a.posted_at))
      (db.posts.filter fun p => cutoff < p.posted_at)).take limit).map
    fun p => p.content).filter strTruthy

/-! ## Publish coordinator -/

/-- domain/models.py `PublishRequest`. -/
structure PublishRequest where
  draft_id : String
  tweets : List String
  dry_run : Bool
  reply_chain : Bool := true
deriving Repr, DecidableEq

/-- Python `repr` of a list of simple strings, as interpolated into the
success message `f"Published: {tweet_ids}"`. -/
def pyListRepr (xs : List String) : String :=
  "[" ++ String.intercalate ", " (xs.map fun s => "'" ++ s ++ "'") ++ "]"

/-- Modelled from the spec: the current `PublisherAgent.run` publish loop.
`src/app/agents/publisher.py` holds a stale variant (token-keyed, sqlite
`thread_posts` table) that no longer type-checks against the call sites
and tests in the repository; the current loop, described in spec §4.5
step 4 and exercised by `tests/test_publisher_v2.py`, is modelled here:
for each tweet position `i` (1-based) it reuses an existing
`Post(draft_id, position=i)` as the reply anchor, otherwise synthesizes
`dry_<first-8-of-draft-id>_<i>` in dry-run mode or calls the downstream
API (`postTweet`, `none` = retries exhausted), and persists the `Post`
with `publish_idempotency_key = draft_id ++ ":" ++ i` through
`insert_post_idempotent`. -/
def publishLoop (existing : Nat → Option String) (draftId : String)
    (dryRun replyChain : Bool) (postTweet : String → Option String → Option String)
    (now : Int) : List String → Nat → Option String → List String → DB →
    Except String (List String) × DB
  | [], _idx, _reply, ids, db => (.ok ids, db)
  | text :: rest, idx, reply, ids, db =>
    match existing idx with
    | some tid =>
      publishLoop existing draftId dryRun replyChain postTweet now rest (idx + 1)
        (some tid) (ids ++ [tid]) db
    | none =>
      if dryRun then
        let fakeId := "dry_" ++ strTake 8 draftId ++ "_" ++ toString idx
        let db' := insert_post_idempotent db draftId idx fakeId text
          (draftId ++ ":" ++ toString idx) now
        publishLoop existing draftId dryRun replyChain postTweet now rest (idx + 1)
          (some fakeId) (ids ++ [fakeId]) db'
      else
        match postTweet text (if replyChain then reply else none) with
        | none => (.error "X post failed", db)
        | some tid =>
          let db' := insert_post_idempotent db draftId idx tid text
            (draftId ++ ":" ++ toString idx) now
          publishLoop existing draftId dryRun replyChain postTweet now rest (idx + 1)
            (some tid) (ids ++ [tid]) db'

/-- Modelled from the spec: `PublisherAgent.run` (see `publishLoop`).  The
existing-post map is computed once up front, and the effective dry-run
flag is `request.dry_run or settings.DRY_RUN` as in the source. -/
def publisherRun (db : DB) (req : PublishRequest) (settingsDryRun : Bool)
    (postTweet : String → Option String → Option String) (now : Int) :
    Except String (List String) × DB :=
  publishLoop (existingThreadPost db req.draft_id) req.draft_id
    (req.dry_run || settingsDryRun) req.reply_chain postTweet now req.tweets 1 none [] db

/-! ## Orchestrator flows (orchestrator.py) -/

/-- orchestrator.py `approve_draft`, second session onward: rebuild the
`EditedDraft` from the stored snapshots (`final_text` overridden by the
draft column, thread tweets taken from `tweets_json` when present). -/
def reconstructEdited (draft : DraftRow) : EditedDraft :=
  let base := draft.edited_draft
  let ft :=
    if strTruthy draft.final_text then draft.final_text
    else if optStrTruthy base.final_text then base.final_text.getD "" else ""
  let base1 := { base with final_text := some ft }
  if draft.thread_enabled ∧ optListTruthy draft.tweets_json then
    { base1 with final_tweets := some ((draft.tweets_json.getD []).filter strTruthy) }
  else base1

/-- orchestrator.py `approve_draft` tweet-list composition before the
publish request is built. -/
def composeTweets (edited : EditedDraft) : List String :=
  let tweets :=
    if edited.mode = "thread" then
      if optListTruthy edited.final_tweets then edited.final_tweets.getD []
      else if optStrTruthy edited.final_text then [edited.final_text.getD ""] else []
    else [edited.final_text.getD ""]
  tweets.filter strTruthy

/-- orchestrator.py `approve_draft`.  Configuration (`DRY_RUN`, blocked
terms, similarity threshold), the token hash function, the downstream
poster and the publish owner id are parameters; timestamps use a single
`now`.  The control flow — two token resolutions, guard chain, policy
re-run on stored snapshots, lease acquisition, publish, finalize or error
path — mirrors the source. -/
def approveDraft (h : String → String) (blockedTerms : List String) (threshold : ℚ)
    (dryRun : Bool) (postTweet : String → Option String → Option String)
    (owner : String) (now : Int) (raw : String) (db : DB) : (Nat × String) × DB :=
  match resolve_action_token db h "approve" raw now with
  | (draftOpt, tokenOpt, tokenStatus) =>
    if tokenStatus = "not_found" then ((404, "Token not found"), db)
    else if tokenStatus = "expired" then ((410, "Token expired"), db)
    else if tokenStatus = "consumed" then ((200, "Already processed"), db)
    else
      match draftOpt, tokenOpt with
      | some draft, some _tokenRow =>
        if draft.token_consumed then ((200, "Already processed: " ++ draft.status), db)
        else if isExpiredVal now draft.expires_at then ((410, "Token expired"), db)
        else if draft.status ∈ ["posted", "dry_run_posted", "skipped", "error"] then
          ((200, "Already " ++ draft.status), db)
        else
          let materials := draft.materials
          let style := draft.style_profile
          let recentPosts := get_recent_posts db now 14
          let edited := reconstructEdited draft
          let report := policyRun blockedTerms threshold edited materials recentPosts style
          if report.action ≠ "PASS" then ((403, "Policy check failed"), db)
          else
            match resolve_action_token db h "approve" raw now with
            | (draftOpt2, tokenOpt2, tokenStatus2) =>
              if tokenStatus2 = "not_found" then ((404, "Token not found"), db)
              else if tokenStatus2 = "expired" then ((410, "Token expired"), db)
              else if tokenStatus2 = "consumed" then ((200, "Already processed"), db)
              else
                match draftOpt2, tokenOpt2 with
                | some draft2, some tokenRow2 =>
                  if draft2.token_consumed then
                    ((200, "Already processed: " ++ draft2.status), db)
                  else if isExpiredVal now draft2.expires_at then ((410, "Token expired"), db)
                  else
                    let draftId := draft2.id
                    match try_start_publish_attempt db draftId 1 (some owner) now with
                    | ((started, attemptOpt), db1) =>
                      if !started then
                        match attemptOpt with
                        | none => ((409, "Publish already started"), db1)
                        | some attemptRow =>
                          if attemptRow.status = "completed" then
                            ((200, "Already processed: " ++ draft2.status), db1)
                          else if attemptRow.status = "failed" then
                            ((409, "Previous publish attempt failed; use resume action"), db1)
                          else ((200, "Publish already in progress"), db1)
                      else
                        let db2 := updateDraft db1 draftId fun d => { d with status := "publishing" }
                        let db3 := consume_action_token db2 tokenRow2 now
                        let tweets := composeTweets edited
                        let req : PublishRequest :=
                          { draft_id := draftId, tweets := tweets, dry_run := dryRun
                            reply_chain := true }
                        match publisherRun db3 req dryRun postTweet now with
                        | (.ok tweetIds, db4) =>
                          let newStatus := if dryRun then "dry_run_posted" else "posted"
                          match get_draft db4 draftId with
                          | none => ((404, "Draft not found"), db4)
                          | some _draftRow =>
                            let attemptOpt2 := get_publish_attempt db4 draftId 1
                            let db5 := updateDraft db4 draftId
                              (markDraftConsumed now newStatus (some tweetIds)
                                (some ("approve:" ++ draftId)))
                            let db6 :=
                              if attemptOpt2.isSome then
                                mark_publish_attempt_completed db5 draftId 1 now
                              else db5
                            ((200, "Published: " ++ pyListRepr tweetIds), db6)
                        | (.error e, db4) =>
                          match get_draft db4 draftId with
                          | none => ((500, "Publish failed"), db4)
                          | some _draftRow =>
                            let attemptOpt2 := get_publish_attempt db4 draftId 1
                            let db5 := updateDraft db4 draftId fun d =>
                              { d with status := "error", last_error := some (strTake 500 e) }
                            let db6 :=
                              if attemptOpt2.isSome then
                                mark_publish_attempt_failed db5 draftId 1 e now
                              else db5
                            ((500, "Publish failed"), db6)
                | _, _ => ((404, "Token not found"), db)
      | _, _ => ((404, "Token not found"), db)

/-- orchestrator.py `skip_draft`. -/
def skipDraft (h : String → String) (now : Int) (raw : String) (db : DB) :
    (Nat × String) × DB :=
  match resolve_action_token db h "skip" raw now with
  | (draftOpt, tokenOpt, tokenStatus) =>
    if tokenStatus = "not_found" then ((404, "Not found"), db)
    else if tokenStatus = "expired" then ((410, "Expired"), db)
    else if tokenStatus = "consumed" then ((200, "Already skipped"), db)
    else
      match draftOpt, tokenOpt with
      | some draft, some tokenRow =>
        if isExpiredVal now draft.expires_at then ((410, "Expired"), db)
        else if draft.token_consumed then ((409, "Token consumed"), db)
        else
          let db1 := updateDraft db draft.id (markDraftSkipped now)
          let db2 := consume_action_token db1 tokenRow now
          ((200, "Skipped"), db2)
      | _, _ => ((404, "Not found"), db)

/-- orchestrator.py `start_run`: create the Run, execute the pipeline
(whose outcome is the `workflow` parameter — `.error e` models an
exception escaping a stage), and finalize the Run as `completed` or
`failed`.  The result type is `Except` so that an escaping exception
would be `.error`; the source's `try/except` catches every pipeline
exception, finalizes, and falls through to `return run_id`.  AgentLog
replacement at finalize is not modelled (no claim concerns logs). -/
def startRun (runId source : String) (startedAt finishedAt : Int)
    (workflow : Except String Unit) (db : DB) : Except String (String × DB) :=
  let db0 := create_run db runId source startedAt
  let durationMs : Int := (finishedAt - startedAt) * 1000
  let db1 :=
    match workflow with
    | .ok _ => update_run_status db0 runId "completed" finishedAt (some durationMs) none
    | .error e =>
      update_run_status db0 runId "failed" finishedAt (some durationMs) (some (strTake 500 e))
  .ok (runId, db1)

/-! ## Rewrite loop (orchestrator.py `_execute_workflow`) -/

/-- The Writer→Critic→Policy loop of `_execute_workflow`, abstracted over
the sequence of policy actions `act` produced at successive iterations
(the writer/critic outputs feed the policy run; only the resulting action
drives the loop).  Returns the number of Writer invocations: the loop
exits on `PASS`, re-enters only when the action is `REWRITE` and
`rewrites < maxRewrites` (incrementing `rewrites`), and otherwise exits
with the current artifacts. -/
def rewriteLoopGo (act : Nat → String) (maxRewrites rewrites iter : Nat) : Nat :=
  if act iter = "PASS" then iter + 1
  else if act iter = "REWRITE" ∧ rewrites < maxRewrites then
    rewriteLoopGo act maxRewrites (rewrites + 1) (iter + 1)
  else iter + 1
termination_by maxRewrites - rewrites
decreasing_by
  rename_i h
  omega

/-- Total Writer invocations of one `_execute_workflow` run. -/
def writerInvocations (act : Nat → String) (maxRewrites : Nat) : Nat :=
  rewriteLoopGo act maxRewrites 0 0

/-! ## SHA-1 and UUIDv5 (draft id derivation, orchestrator.py
`_create_draft_record`)

`draft_id = uuid.uuid5(uuid.NAMESPACE_URL, f"draft_id:{run_id}")`.
UUIDv5 is the SHA-1 of the namespace bytes concatenated with the UTF-8
name, truncated to 16 bytes with version/variant bits forced.  Machine
words are `Nat` reduced mod `2^32`. -/

/-- Truncate to a 32-bit word. -/
def w32 (n : Nat) : Nat := n % 4294967296

/-- 32-bit left rotation. -/
def rotl (k n : Nat) : Nat := w32 (n <<< k) ||| (n >>> (32 - k))

/-- SHA-1 round function. -/
def sha1F (t b c d : Nat) : Nat :=
  if t < 20 then (b &&& c) ||| ((b ^^^ 4294967295) &&& d)
  else if t < 40 then b ^^^ c ^^^ d
  else if t < 60 then (b &&& c) ||| (b &&& d) ||| (c &&& d)
  else b ^^^ c ^^^ d

/-- SHA-1 round constants. -/
def sha1K (t : Nat) : Nat :=
  if t < 20 then 0x5A827999
  else if t < 40 then 0x6ED9EBA1
  else if t < 60 then 0x8F1BBCDC
  else 0xCA62C1D6

/-- SHA-1 message padding over bytes. -/
def sha1Pad (msg : List Nat) : List Nat :=
  let len := msg.length
  let bitLen := len * 8
  let zeros := (119 - len % 64) % 64
  msg ++ [0x80] ++ List.replicate zeros 0 ++
    [(bitLen >>> 56) % 256, (bitLen >>> 48) % 256, (bitLen >>> 40) % 256, (bitLen >>> 32) % 256,
     (bitLen >>> 24) % 256, (bitLen >>> 16) % 256, (bitLen >>> 8) % 256, bitLen % 256]

/-- Big-endian bytes to 32-bit words. -/
def bytesToWords : List Nat → List Nat
  | b0 :: b1 :: b2 :: b3 :: rest =>
    (((b0 * 256 + b1) * 256 + b2) * 256 + b3) :: bytesToWords rest
  | _ => []

/-- Split a word list into 16-word blocks (fuel-based structural
recursion; the fuel bounds the number of blocks). -/
def chunks16Go : Nat → List Nat → List (List Nat)
  | 0, _ => []
  | _, [] => []
  | fuel + 1, w :: ws => (w :: ws).take 16 :: chunks16Go fuel ((w :: ws).drop 16)

/-- Split a word list into 16-word blocks. -/
def chunks16 (ws : List Nat) : List (List Nat) :=
  chunks16Go ws.length ws

/-- Extend a 16-word block by `fuel` schedule words. -/
def sha1ExtendFrom (w : List Nat) (fuel : Nat) : List Nat :=
  match fuel with
  | 0 => w
  | fuel' + 1 =>
    let n := w.length
    let x := rotl 1 ((w.getD (n - 3) 0) ^^^ (w.getD (n - 8) 0) ^^^
      (w.getD (n - 14) 0) ^^^ (w.getD (n - 16) 0))
    sha1ExtendFrom (w ++ [x]) fuel'

/-- The 80-word message schedule of one block. -/
def sha1Schedule (block : List Nat) : List Nat :=
  sha1ExtendFrom block 64

/-- SHA-1 working state. -/
structure Sha1State where
  a : Nat
  b : Nat
  c : Nat
  d : Nat
  e : Nat
deriving Repr, DecidableEq

/-- Compress one 16-word block into the running state. -/
def sha1Compress (st : Sha1State) (block : List Nat) : Sha1State :=
  let ws := sha1Schedule block
  let r := (List.range 80).foldl
    (fun (s : Sha1State) t =>
      let tmp := w32 (rotl 5 s.a + sha1F t s.b s.c s.d + s.e + sha1K t + ws.getD t 0)
      { a := tmp, b := s.a, c := rotl 30 s.b, d := s.c, e := s.d })
    st
  { a := w32 (st.a + r.a), b := w32 (st.b + r.b), c := w32 (st.c + r.c)
    d := w32 (st.d + r.d), e := w32 (st.e + r.e) }

/-- 32-bit words to big-endian bytes. -/
def wordsToBytes (ws : List Nat) : List Nat :=
  ws.flatMap fun w => [(w >>> 24) % 256, (w >>> 16) % 256, (w >>> 8) % 256, w % 256]

/-- SHA-1 digest (20 bytes) of a byte string. -/
def sha1Bytes (msg : List Nat) : List Nat :=
  let blocks := chunks16 (bytesToWords (sha1Pad msg))
  let final := blocks.foldl sha1Compress
    { a := 0x67452301, b := 0xEFCDAB89, c := 0x98BADCFE, d := 0x10325476, e := 0xC3D2E1F0 }
  wordsToBytes [final.a, final.b, final.c, final.d, final.e]

/-- Lowercase hex digit. -/
def hexDigit (n : Nat) : String :=
  String.singleton ("0123456789abcdef".toList.getD n '0')

/-- Two-digit lowercase hex of a byte. -/
def hexByte (n : Nat) : String :=
  hexDigit (n / 16) ++ hexDigit (n % 16)

/-- Lowercase hex of a byte string. -/
def bytesHex (bs : List Nat) : String :=
  String.join (bs.map hexByte)

/-- UTF-8 encoding of one code point. -/
def utf8EncodeCharNat (n : Nat) : List Nat :=
  if n < 0x80 then [n]
  else if n < 0x800 then [0xC0 ||| (n >>> 6), 0x80 ||| (n &&& 0x3F)]
  else if n < 0x10000 then
    [0xE0 ||| (n >>> 12), 0x80 ||| ((n >>> 6) &&& 0x3F), 0x80 ||| (n &&& 0x3F)]
  else
    [0xF0 ||| (n >>> 18), 0x80 ||| ((n >>> 12) &&& 0x3F),
     0x80 ||| ((n >>> 6) &&& 0x3F), 0x80 ||| (n &&& 0x3F)]

/-- UTF-8 bytes of a string. -/
def utf8Bytes (s : String) : List Nat :=
  s.toList.flatMap fun c => utf8EncodeCharNat c.toNat

/-- `uuid.uuid5(namespace, name)`: SHA-1 of namespace bytes ++ UTF-8 name,
first 16 bytes, version nibble forced to 5 and variant to RFC 4122,
rendered in the canonical 8-4-4-4-12 form. -/
def uuid5 (ns : List Nat) (name : String) : String :=
  let dg := (sha1Bytes (ns ++ utf8Bytes name)).take 16
  let b6 := ((dg.getD 6 0) &&& 0x0F) ||| 0x50
  let b8 := ((dg.getD 8 0) &&& 0x3F) ||| 0x80
  let dg' := (dg.set 6 b6).set 8 b8
  bytesHex (dg'.take 4) ++ "-" ++ bytesHex ((dg'.drop 4).take 2) ++ "-" ++
    bytesHex ((dg'.drop 6).take 2) ++ "-" ++ bytesHex ((dg'.drop 8).take 2) ++ "-" ++
    bytesHex (dg'.drop 10)

/-- The bytes of `uuid.NAMESPACE_URL`
(`6ba7b811-9dad-11d1-80b4-00c04fd430c8`). -/
def NAMESPACE_URL : List Nat :=
  [0x6b, 0xa7, 0xb8, 0x11, 0x9d, 0xad, 0x11, 0xd1,
   0x80, 0xb4, 0x00, 0xc0, 0x4f, 0xd4, 0x30, 0xc8]

/-- orchestrator.py `_create_draft_record` line 467:
`draft_id = str(uuid.uuid5(uuid.NAMESPACE_URL, f"draft_id:{run_id}"))`. -/
def draftIdOf (runId : String) : String :=
  uuid5 NAMESPACE_URL ("draft_id:" ++ runId)

/-- orchestrator.py `_create_draft_record`: derive the draft id from the
run id, and create the draft only when no row with that id exists.  The
issuance of the five action tokens (random bearer strings, I/O) is not
modelled; no claim concerns it. -/
def createDraftRecord (db : DB) (runId : String) (now : Int) (ttlHours : Nat)
    (materials : Materials) (plan : TopicPlan) (style : StyleProfile)
    (threadPlan : ThreadPlan) (candidates : DraftCandidates)
    (edited : EditedDraft) (report : PolicyReport) (tokenHash : String) : DB × String :=
  let draftId := draftIdOf runId
  let expires := now + (ttlHours : Int) * 3600
  let status := if report.action = "PASS" then "pending" else "needs_human_attention"
  let db1 :=
    match get_draft db draftId with
    | some _ => db
    | none =>
      (create_draft db runId draftId tokenHash now expires status materials plan style
        threadPlan candidates edited report).1
  (db1, draftId)

/-! ## Draft status/consumption invariant (spec §3) -/

/-- The terminal statuses in which a draft's token is consumed. -/
def terminalStatuses : List String := ["posted", "dry_run_posted", "skipped"]

/-- The Draft invariant: `token_consumed = true ⇔ consumed_at is set ⇔
status ∈ {posted, dry_run_posted, skipped}`. -/
def draftInvariant (d : DraftRow) : Prop :=
  (d.token_consumed = true ↔ d.consumed_at.isSome) ∧
    (d.token_consumed = true ↔ d.status ∈ terminalStatuses)

instance (d : DraftRow) : Decidable (draftInvariant d) := by
  unfold draftInvariant
  infer_instance

/-! ## Concrete fixtures used by witnesses and counterexamples -/

/-- A stand-in for SHA-256 in concrete examples (the repository layer
treats the hash as an opaque unique key). -/
def exHash (s : String) : String := s ++ "#sha"

/-- Example topic plan. -/
def exTopicPlan : TopicPlan := { topic_bucket := 1, angles := ["a"], key_points := ["k"] }

/-- Example thread plan (single mode). -/
def exThreadPlan : ThreadPlan := { enabled := false, tweets_count := 1 }

/-- Example evidence item: the scenario-S1 git commit. -/
def exCommit : EvidenceItem where
  source_name := "git"
  source_id := "c1"
  timestamp := 0
  raw_snippet := "Fix login redirect bug"

/-- Example materials around `exCommit`. -/
def exMaterials : Materials := { git_commits := [exCommit] }

/-- Example edited draft whose policy verdict is PASS (scenario S1). -/
def exEdited : EditedDraft :=
  { mode := "single", original := { mode := "single" }
    final_text := some "Fixed login redirect bug and shipped it." }

/-- The stored policy report of the example draft. -/
def exPassReport : PolicyReport :=
  policyRun [] (mkRat 3 5) exEdited exMaterials [] {}

/-- Example pending draft with PASS snapshots. -/
def exDraft : DraftRow :=
  { id := "d1", token := "th1", run_id := "r1", created_at := 0
    expires_at := .vDatetime { wall := 1000, tzOffset := some 0 }
    status := "pending", token_consumed := false, thread_enabled := false
    materials := exMaterials, topic_plan := exTopicPlan, style_profile := {}
    candidates := { candidates := [] }, edited_draft := exEdited
    policy_report := exPassReport
    final_text := "Fixed login redirect bug and shipped it." }

/-- Example approve action token for `exDraft`. -/
def exApproveToken : ActionTokenRow :=
  { draft_id := "d1", action := "approve", token_hash := exHash "tok1"
    created_at := 0, expires_at := 500, one_time := true }

/-- Database with one pending approvable draft. -/
def c1DB : DB := { drafts := [exDraft], action_tokens := [exApproveToken] }

/-- `c1DB` with a `started` publish attempt already present for the draft. -/
def c3DB : DB :=
  { c1DB with publish_attempts :=
      [{ draft_id := "d1", attempt := 1, owner := some "prev", status := "started"
         created_at := 0 }] }

/-- Draft whose stored `expires_at` is an unparseable string. -/
def c10Draft : DraftRow :=
  { exDraft with id := "d2", token := "th2", expires_at := .vStr "not-a-date" }

/-- Skip action token for `c10Draft`. -/
def c10SkipToken : ActionTokenRow :=
  { draft_id := "d2", action := "skip", token_hash := exHash "tok2"
    created_at := 0, expires_at := 500, one_time := true }

/-- Database for the unparseable-expiry skip example. -/
def c10DB : DB := { drafts := [c10Draft], action_tokens := [c10SkipToken] }

/-- One-time token used by the resolution-protocol witness. -/
def c5Token : ActionTokenRow :=
  { draft_id := "d1", action := "view", token_hash := exHash "tok5"
    created_at := 0, expires_at := 500, one_time := true }

/-- Database for the resolution-protocol witness. -/
def c5DB : DB := { drafts := [exDraft], action_tokens := [c5Token] }

/-- Edited draft whose only failing check is `thread_marker_ok`: too few
tokens for claims, a `"1/"` marker in single mode, nothing else wrong. -/
def c2CexEdited : EditedDraft :=
  { mode := "single", original := { mode := "single" }, final_text := some "ok 1/" }

/-- Edited draft whose only failing check is `tone_ok` (exaggeration
marker `never`, too few tokens for claims). -/
def c2ToneEdited : EditedDraft :=
  { mode := "single", original := { mode := "single" }, final_text := some "never ok" }

/-- The failing check names of a report. -/
def failingNames (r : PolicyReport) : List String :=
  (r.checks.filter fun c => !c.passed).map fun c => c.check_name

/-- The synthesized dry-run tweet id of position `i`
(`dry_<first-8-of-draft-id>_<i>`). -/
def dryTweetId (draftId : String) (i : Nat) : String :=
  "dry_" ++ strTake 8 draftId ++ "_" ++ toString i

/-- The publish idempotency key of position `i` (`draft_id:i`). -/
def publishKey (draftId : String) (i : Nat) : String :=
  draftId ++ ":" ++ toString i

/-- The Post row persisted for position `i` of a dry-run publish. -/
def dryPostRow (draftId : String) (now : Int) (it : Nat × String) : PostRow :=
  { draft_id := draftId, position := it.1, tweet_id := dryTweetId draftId it.1
    content := it.2, posted_at := now, publish_idempotency_key := publishKey draftId it.1 }

/-- Decimal value of a digit string (used to invert `Nat.repr`). -/
def digitsVal (cs : List Char) : Nat :=
  cs.foldl (fun acc c => acc * 10 + (c.toNat - 48)) 0

/-! ## Theorems -/

/-- Bound for the rewrite loop: starting from `rewrites = r`, at most
`(m - r) + 1` further Writer invocations happen beyond iteration `i`. -/
theorem rewriteLoopGo_le (act : Nat → String) (m : Nat) :
    ∀ k r i, m - r ≤ k → rewriteLoopGo act m r i ≤ i + (m - r) + 1 := by
  intro k
  induction k with
  | zero =>
    intro r i hk
    rw [rewriteLoopGo]
    split
    · omega
    · split
      · rename_i hc
        exact absurd hc.2 (by omega)
      · omega
  | succ k ih =>
    intro r i hk
    rw [rewriteLoopGo]
    split
    · omega
    · split
      · rename_i hc
        have h2 := ih (r + 1) (i + 1) (by omega)
        omega
      · omega

/-- C6: in every run of the orchestrator's rewrite loop the Writer stage is
invoked at most `REWRITE_MAX + 1` times — the loop exits on PASS, re-enters
the Writer only while `rewrites < REWRITE_MAX` (incrementing `rewrites`),
and otherwise exits with the current artifacts; `writerInvocations` being a
total function witnesses termination. -/
theorem rewrite_loop_writer_bound (act : Nat → String) (maxRewrites : Nat) :
    writerInvocations act maxRewrites ≤ maxRewrites + 1 := by
  have h := rewriteLoopGo_le act maxRewrites maxRewrites 0 0 (by omega)
  simpa [writerInvocations] using h

/-- The action and risk level of a policy run are `PASS`/`LOW` when no
check fails and otherwise come from `decideAction` on the failing checks. -/
theorem policyRun_action_risk (bt : List String) (th : ℚ) (e : EditedDraft)
    (m : Materials) (rec : List String) (st : StyleProfile) :
    (((policyRun bt th e m rec st).checks.filter fun c => !c.passed).isEmpty = true →
      (policyRun bt th e m rec st).action = "PASS" ∧
        (policyRun bt th e m rec st).risk_level = "LOW") ∧
    (((policyRun bt th e m rec st).checks.filter fun c => !c.passed).isEmpty = false →
      (policyRun bt th e m rec st).action =
          (decideAction ((policyRun bt th e m rec st).checks.filter fun c => !c.passed)).1 ∧
        (policyRun bt th e m rec st).risk_level =
          (decideAction ((policyRun bt th e m rec st).checks.filter fun c => !c.passed)).2) := by
  simp only [policyRun]
  constructor
  · intro h
    simp only [h, if_true]
    exact ⟨trivial, trivial⟩
  · intro h
    simp only [h, Bool.false_eq_true, if_false]
    exact ⟨trivial, trivial⟩

/-- `decideAction` returns REWRITE/MEDIUM when none of the HOLD/HIGH names
failed and one of `length_ok`, `similarity_ok`, `tone_ok` did. -/
theorem decideAction_rewrite_medium (failures : List PolicyCheckResult)
    (hs : "sensitive_ok" ∉ failures.map fun c => c.check_name)
    (hl : "leakage_ok" ∉ failures.map fun c => c.check_name)
    (hf : "fact_grounded_ok" ∉ failures.map fun c => c.check_name)
    (hany : "length_ok" ∈ (failures.map fun c => c.check_name) ∨
      "similarity_ok" ∈ (failures.map fun c => c.check_name) ∨
      "tone_ok" ∈ (failures.map fun c => c.check_name)) :
    decideAction failures = ("REWRITE", "MEDIUM") := by
  have mk : ∀ n : String, n ∉ (failures.map fun c => c.check_name) →
      (failures.any fun f => decide (f.check_name = n)) = false := by
    intro n hn
    simp only [List.any_eq_false, decide_eq_true_eq]
    intro f hf' he
    exact hn (List.mem_map.mpr ⟨f, hf', he⟩)
  have mk2 : ∀ n : String, n ∈ (failures.map fun c => c.check_name) →
      (failures.any fun f => decide (f.check_name = n)) = true := by
    intro n hn
    obtain ⟨f, hf', he⟩ := List.mem_map.mp hn
    exact List.any_eq_true.mpr ⟨f, hf', by simp [he]⟩
  unfold decideAction
  simp only [mk _ hs, mk _ hl, mk _ hf, Bool.false_eq_true, if_false]
  rcases hany with h | h | h <;> simp [mk2 _ h]

/-- `decideAction` falls through to HOLD/HIGH when none of the six names
of the dispatch failed (in particular when only `thread_marker_ok` did). -/
theorem decideAction_fallthrough (failures : List PolicyCheckResult)
    (hs : "sensitive_ok" ∉ failures.map fun c => c.check_name)
    (hl : "leakage_ok" ∉ failures.map fun c => c.check_name)
    (hf : "fact_grounded_ok" ∉ failures.map fun c => c.check_name)
    (hlen : "length_ok" ∉ failures.map fun c => c.check_name)
    (hsim : "similarity_ok" ∉ failures.map fun c => c.check_name)
    (htone : "tone_ok" ∉ failures.map fun c => c.check_name) :
    decideAction failures = ("HOLD", "HIGH") := by
  have mk : ∀ n : String, n ∉ (failures.map fun c => c.check_name) →
      (failures.any fun f => decide (f.check_name = n)) = false := by
    intro n hn
    simp only [List.any_eq_false, decide_eq_true_eq]
    intro f hf' he
    exact hn (List.mem_map.mpr ⟨f, hf', he⟩)
  unfold decideAction
  simp [mk _ hs, mk _ hl, mk _ hf, mk _ hlen, mk _ hsim, mk _ htone]

/-- C2 (amended): over the set of failing checks of a policy run, when
neither `sensitive_ok` nor `leakage_ok` nor `fact_grounded_ok` failed, the
report is `(REWRITE, MEDIUM)` when any of `length_ok`, `similarity_ok`,
`tone_ok` failed; but when `thread_marker_ok` is the only failing check
the report is `(HOLD, HIGH)` — `_decide_action` omits `thread_marker_ok`
from the REWRITE line and falls through to its default. -/
theorem policy_rewrite_medium_dispatch (bt : List String) (th : ℚ) (e : EditedDraft)
    (m : Materials) (rec : List String) (st : StyleProfile) :
    (("sensitive_ok" ∉ failingNames (policyRun bt th e m rec st) →
      "leakage_ok" ∉ failingNames (policyRun bt th e m rec st) →
      "fact_grounded_ok" ∉ failingNames (policyRun bt th e m rec st) →
      ("length_ok" ∈ failingNames (policyRun bt th e m rec st) ∨
        "similarity_ok" ∈ failingNames (policyRun bt th e m rec st) ∨
        "tone_ok" ∈ failingNames (policyRun bt th e m rec st)) →
      (policyRun bt th e m rec st).action = "REWRITE" ∧
        (policyRun bt th e m rec st).risk_level = "MEDIUM")) ∧
    (failingNames (policyRun bt th e m rec st) = ["thread_marker_ok"] →
      (policyRun bt th e m rec st).action = "HOLD" ∧
        (policyRun bt th e m rec st).risk_level = "HIGH") := by
  have hcase := policyRun_action_risk bt th e m rec st
  constructor
  · intro hs hl hf hany
    have hmem : ∃ f, f ∈ ((policyRun bt th e m rec st).checks.filter fun c => !c.passed) := by
      rcases hany with h | h | h <;>
        (unfold failingNames at h
         obtain ⟨f, hf', _⟩ := List.mem_map.mp h
         exact ⟨f, hf'⟩)
    obtain ⟨f, hf'⟩ := hmem
    have hne : ((policyRun bt th e m rec st).checks.filter fun c => !c.passed).isEmpty = false := by
      cases hb : ((policyRun bt th e m rec st).checks.filter fun c => !c.passed).isEmpty
      · rfl
      · rw [List.isEmpty_iff] at hb
        rw [hb] at hf'
        exact absurd hf' (List.not_mem_nil f)
    have har := hcase.2 hne
    rw [har.1, har.2]
    unfold failingNames at hs hl hf hany
    have hd := decideAction_rewrite_medium ((policyRun bt th e m rec st).checks.filter fun c => !c.passed) hs hl hf hany
    rw [hd]
    exact ⟨rfl, rfl⟩
  · intro hname
    unfold failingNames at hname
    have hne : ((policyRun bt th e m rec st).checks.filter fun c => !c.passed).isEmpty = false := by
      cases hb : ((policyRun bt th e m rec st).checks.filter fun c => !c.passed).isEmpty
      · rfl
      · rw [List.isEmpty_iff] at hb
        rw [hb] at hname
        simp at hname
    have har := hcase.2 hne
    rw [har.1, har.2]
    have hmk : ∀ n : String, n ≠ "thread_marker_ok" →
        n ∉ ((policyRun bt th e m rec st).checks.filter fun c => !c.passed).map fun c => c.check_name := by
      intro n hn hmemn
      rw [hname] at hmemn
      simp only [List.mem_singleton] at hmemn
      exact hn hmemn
    have hd := decideAction_fallthrough ((policyRun bt th e m rec st).checks.filter fun c => !c.passed)
      (hmk _ (by decide)) (hmk _ (by decide)) (hmk _ (by decide))
      (hmk _ (by decide)) (hmk _ (by decide)) (hmk _ (by decide))
    rw [hd]
    exact ⟨rfl, rfl⟩

/-- C2 counterexample: on a single-mode draft whose text is `"ok 1/"`
(with no blocked terms, no recent posts, default threshold),
`thread_marker_ok` is the only failing check, yet the report is
`(HOLD, HIGH)`, not `(REWRITE, MEDIUM)` as the claim states. -/
theorem policy_thread_marker_counterexample :
    failingNames (policyRun [] (mkRat 3 5) c2CexEdited {} [] {}) = ["thread_marker_ok"] ∧
    (policyRun [] (mkRat 3 5) c2CexEdited {} [] {}).action = "HOLD" ∧
    (policyRun [] (mkRat 3 5) c2CexEdited {} [] {}).risk_level = "HIGH" ∧
    ¬((policyRun [] (mkRat 3 5) c2CexEdited {} [] {}).action = "REWRITE" ∧
      (policyRun [] (mkRat 3 5) c2CexEdited {} [] {}).risk_level = "MEDIUM") := by
  decide

/-- Witness for the amended C2 theorem: a tone-only failure yields
`(REWRITE, MEDIUM)`; a thread-marker-only failure yields `(HOLD, HIGH)`. -/
theorem policy_rewrite_medium_dispatch_witness :
    ((policyRun [] (mkRat 3 5) c2ToneEdited {} [] {}).action = "REWRITE" ∧
      (policyRun [] (mkRat 3 5) c2ToneEdited {} [] {}).risk_level = "MEDIUM") ∧
    ((policyRun [] (mkRat 3 5) c2CexEdited {} [] {}).action = "HOLD" ∧
      (policyRun [] (mkRat 3 5) c2CexEdited {} [] {}).risk_level = "HIGH") :=
  ⟨(policy_rewrite_medium_dispatch [] (mkRat 3 5) c2ToneEdited {} [] {}).1
      (by decide) (by decide) (by decide) (by decide),
    (policy_rewrite_medium_dispatch [] (mkRat 3 5) c2CexEdited {} [] {}).2 (by decide)⟩

/-- Jaccard similarity of a non-empty token set with itself is 1. -/
theorem jaccard_self (a : Finset String) (h : a ≠ ∅) : jaccard a a = 1 := by
  unfold jaccard
  rw [if_neg (by simp [h])]
  simp only [Finset.inter_self, Finset.union_self]
  have hcard : a.card ≠ 0 := by
    simpa [Finset.card_eq_zero] using h
  rw [if_neg hcard, Rat.mkRat_eq_div]
  push_cast
  exact div_self (by exact_mod_cast hcard)

/-- The inner similarity scan hits immediately on a recent post identical
to the candidate (provided the candidate has a token and the threshold is
at most 1). -/
theorem simInner_head_hit (t : String) (th : ℚ) (posts : List String) (worst : ℚ)
    (htok : pyTokenize t ≠ ∅) (hth : th ≤ 1) :
    simInner (pyTokenize t) th (t :: posts) worst = (some 1, max worst 1) := by
  unfold simInner
  rw [jaccard_self _ htok]
  rw [if_pos hth]

/-- The outer similarity scan reports a hit whenever some candidate tweet
also occurs among the recent posts. -/
theorem simOuter_hits (recent : List String) (th : ℚ) (t : String)
    (htok : pyTokenize t ≠ ∅) (hth : th ≤ 1) :
    ∀ tweets worst, t ∈ tweets →
      ∃ s w, simOuter (t :: recent) th tweets worst = (some s, w) := by
  intro tweets
  induction tweets with
  | nil => intro worst h; exact absurd h (List.not_mem_nil t)
  | cons tw rest ih =>
    intro worst hmem
    unfold simOuter
    cases hsi : simInner (pyTokenize tw) th (t :: recent) worst with
    | mk fst snd =>
      cases fst with
      | some s => exact ⟨s, snd, by simp [hsi]⟩
      | none =>
        rcases List.mem_cons.mp hmem with rfl | hrest
        · rw [simInner_head_hit t th recent worst htok hth] at hsi
          simp at hsi
        · have hr := ih snd hrest
          simpa [hsi] using hr

/-- C8 (amended): adding a recent post identical to a candidate tweet
drives that pair's Jaccard similarity to 1.0 — which is at or above any
threshold ≤ 1, in particular the default 0.6 — so `similarity_ok` fails,
provided the candidate tweet has at least one word-token of length ≥ 3
(for a candidate whose token set is empty, `_jaccard` returns 0.0 and the
check passes; see the counterexample). -/
theorem similarity_identical_post_fails (tweets recent : List String) (t : String)
    (threshold : ℚ) (ht : t ∈ tweets) (htok : pyTokenize t ≠ ∅) (hth : threshold ≤ 1) :
    jaccard (pyTokenize t) (pyTokenize t) = 1 ∧
    (checkSimilarity tweets (t :: recent) threshold).1 = false := by
  refine ⟨jaccard_self _ htok, ?_⟩
  unfold checkSimilarity
  rw [if_neg (by simp)]
  obtain ⟨s, w, hso⟩ := simOuter_hits recent threshold t htok hth tweets 0 ht
  rw [hso]

/-- C8 counterexample: for a candidate tweet with no token of length ≥ 3
(here `"hi"`), an identical recent post yields Jaccard 0.0, and
`similarity_ok` passes — the claim fails without the token-set proviso. -/
theorem similarity_identical_post_counterexample :
    (checkSimilarity ["hi"] ("hi" :: []) (mkRat 3 5)).1 = true ∧
    jaccard (pyTokenize "hi") (pyTokenize "hi") = 0 ∧
    ¬((checkSimilarity ["hi"] ("hi" :: []) (mkRat 3 5)).1 = false) := by
  decide

/-- Witness for the amended C8 theorem at a concrete candidate. -/
theorem similarity_identical_post_fails_witness :
    jaccard (pyTokenize "shipped the feature") (pyTokenize "shipped the feature") = 1 ∧
    (checkSimilarity ["shipped the feature"] ("shipped the feature" :: []) (mkRat 3 5)).1 =
      false :=
  similarity_identical_post_fails ["shipped the feature"] [] "shipped the feature"
    (mkRat 3 5) (by decide) (by decide) (by decide)

/-- C10: `_is_expired` returns `False` instead of raising for every stored
`expires_at` value that cannot be parsed (unparseable string, or a value
such as `None` on which attribute access raises), and interprets naive
timestamps as UTC before comparing; consequently the flows that gate on
draft expiry (here the skip flow, which calls the same predicate as
approve and edit) treat such a draft as not expired. -/
theorem is_expired_safe :
    (∀ (now : Int) (s : String), fromisoformat s = none →
      isExpiredVal now (.vStr s) = false) ∧
    (∀ now : Int, isExpiredVal now .vNone = false) ∧
    (∀ now w : Int, isExpiredVal now (.vDatetime { wall := w }) =
      isExpiredVal now (.vDatetime { wall := w, tzOffset := some 0 })) ∧
    (∀ (h : String → String) (now : Int) (raw : String) (db : DB)
      (d : DraftRow) (tr : ActionTokenRow) (s : String),
      resolve_action_token db h "skip" raw now = (some d, some tr, "ok") →
      d.expires_at = .vStr s → fromisoformat s = none → d.token_consumed = false →
      (skipDraft h now raw db).1 = (200, "Skipped")) := by
  refine ⟨?_, ?_, ?_, ?_⟩
  · intro now s hparse
    simp [isExpiredVal, hparse]
  · intro now
    rfl
  · intro now w
    rfl
  · intro h now raw db d tr s hres hexp hparse hcons
    unfold skipDraft
    rw [hres]
    have hexpF : isExpiredVal now d.expires_at = false := by
      rw [hexp]
      simp [isExpiredVal, hparse]
    simp [hexpF, hcons]

/-- Witness for C10 at the concrete database `c10DB`, whose draft stores
`expires_at = "not-a-date"`. -/
theorem is_expired_safe_witness :
    isExpiredVal 100 (.vStr "not-a-date") = false ∧
    (skipDraft exHash 100 "tok2" c10DB).1 = (200, "Skipped") :=
  ⟨is_expired_safe.1 100 "not-a-date" (by decide),
    is_expired_safe.2.2.2 exHash 100 "tok2" c10DB c10Draft c10SkipToken "not-a-date"
      (by decide) (by decide) (by decide) (by decide)⟩

/-- `consume_action_token` rewrites the stored row (keyed by its unique
hash) and nothing else, so a later lookup sees the consumed row. -/
theorem get_action_token_after_consume (db : DB) (h : String → String)
    (action raw : String) (now : Int) (row : ActionTokenRow)
    (hget : get_action_token db h action raw = some row)
    (h1 : row.one_time = true) (h2 : row.consumed_at = none) :
    get_action_token (consume_action_token db row now) h action raw =
      some { row with consumed_at := some now } := by
  unfold consume_action_token
  rw [if_pos ⟨h1, h2⟩]
  unfold get_action_token at hget ⊢
  rw [List.find?_map]
  have hpred : (fun r : ActionTokenRow =>
      decide (r.action = action ∧ r.token_hash = h raw)) ∘
        (fun r : ActionTokenRow =>
          if r.token_hash = row.token_hash then { r with consumed_at := some now } else r) =
      fun r : ActionTokenRow => decide (r.action = action ∧ r.token_hash = h raw) := by
    funext r
    by_cases hr : r.token_hash = row.token_hash <;> simp [hr]
  rw [hpred, hget]
  simp

/-- C5: the action-token resolution protocol.  (a) No row matching
`(action, sha256(raw))` yields `not_found`.  (b) A row past its
`expires_at` yields `(expired, row)`, and the approve flow then returns
410 with the database unchanged — the token is not consumed.  (c) A
one-time row whose `consumed_at` is set yields `(consumed, row)`; in
particular a second resolution after `consume_action_token` does.
(d) Consumption sets `consumed_at` only for one-time tokens. -/
theorem action_token_resolution_protocol :
    (∀ (db : DB) (h : String → String) (action raw : String) (now : Int),
      get_action_token db h action raw = none →
      resolve_action_token db h action raw now = (none, none, "not_found")) ∧
    (∀ (db : DB) (h : String → String) (action raw : String) (now : Int)
      (row : ActionTokenRow),
      get_action_token db h action raw = some row → row.expires_at < now →
      resolve_action_token db h action raw now = (none, some row, "expired")) ∧
    (∀ (db : DB) (h : String → String) (raw : String) (now : Int)
      (bt : List String) (th : ℚ) (dr : Bool)
      (pt : String → Option String → Option String) (ow : String)
      (row : ActionTokenRow),
      resolve_action_token db h "approve" raw now = (none, some row, "expired") →
      approveDraft h bt th dr pt ow now raw db = ((410, "Token expired"), db)) ∧
    (∀ (db : DB) (h : String → String) (action raw : String) (now : Int)
      (row : ActionTokenRow),
      get_action_token db h action raw = some row → ¬(row.expires_at < now) →
      row.one_time = true → row.consumed_at.isSome →
      resolve_action_token db h action raw now = (none, some row, "consumed")) ∧
    (∀ (db : DB) (h : String → String) (action raw : String) (now : Int)
      (row : ActionTokenRow),
      get_action_token db h action raw = some row → ¬(row.expires_at < now) →
      row.one_time = true → row.consumed_at = none →
      resolve_action_token (consume_action_token db row now) h action raw now =
        (none, some { row with consumed_at := some now }, "consumed")) ∧
    (∀ (db : DB) (row : ActionTokenRow) (now : Int), row.one_time = false →
      consume_action_token db row now = db) := by
  refine ⟨?_, ?_, ?_, ?_, ?_, ?_⟩
  · intro db h action raw now hget
    unfold resolve_action_token
    rw [hget]
  · intro db h action raw now row hget hlt
    unfold resolve_action_token
    rw [hget]
    simp only [if_pos hlt]
  · intro db h raw now bt th dr pt ow row hres
    unfold approveDraft
    rw [hres]
    simp
  · intro db h action raw now row hget hlt h1 h2
    unfold resolve_action_token
    rw [hget]
    simp only [if_neg hlt]
    rw [if_pos ⟨h1, h2⟩]
  · intro db h action raw now row hget hlt h1 h2
    have hget' := get_action_token_after_consume db h action raw now row hget h1 h2
    unfold resolve_action_token
    rw [hget']
    simp only [if_neg hlt]
    rw [if_pos ⟨h1, by simp⟩]
  · intro db row now h1
    unfold consume_action_token
    rw [if_neg (by simp [h1])]

/-- Witness for C5 at concrete databases `c5DB` / `c1DB`. -/
theorem action_token_resolution_protocol_witness :
    resolve_action_token c5DB exHash "edit" "tok5" 100 = (none, none, "not_found") ∧
    resolve_action_token c5DB exHash "view" "tok5" 1000 =
      (none, some c5Token, "expired") ∧
    approveDraft exHash [] (mkRat 3 5) true (fun _ _ => none) "ow" 1000 "tok1" c1DB =
      ((410, "Token expired"), c1DB) ∧
    resolve_action_token (consume_action_token c5DB c5Token 100) exHash "view" "tok5" 100 =
      (none, some { c5Token with consumed_at := some (100 : Int) }, "consumed") ∧
    consume_action_token c5DB { c5Token with one_time := false } 100 = c5DB := by
  refine ⟨?_, ?_, ?_, ?_, ?_⟩
  · exact action_token_resolution_protocol.1 c5DB exHash "edit" "tok5" 100 (by decide)
  · exact action_token_resolution_protocol.2.1 c5DB exHash "view" "tok5" 1000 c5Token
      (by decide) (by decide)
  · exact action_token_resolution_protocol.2.2.1 c1DB exHash "tok1" 1000 [] (mkRat 3 5)
      true (fun _ _ => none) "ow" exApproveToken
      (action_token_resolution_protocol.2.1 c1DB exHash "approve" "tok1" 1000
        exApproveToken (by decide) (by decide))
  · exact action_token_resolution_protocol.2.2.2.2.1 c5DB exHash "view" "tok5" 100 c5Token
      (by decide) (by decide) (by decide) (by decide)
  · exact action_token_resolution_protocol.2.2.2.2.2 c5DB
      { c5Token with one_time := false } 100 (by decide)

/-- `find?` through a map that does not change the predicate's verdict. -/
theorem find?_through_map {α : Type} (l : List α) (p : α → Bool) (g : α → α)
    (hpres : ∀ r, p (g r) = p r) : (l.map g).find? p = (l.find? p).map g := by
  rw [List.find?_map]
  have : p ∘ g = p := by funext r; simp [Function.comp, hpres r]
  rw [this]

/-- `strTake` is idempotent. -/
theorem strTake_idem (n : Nat) (s : String) : strTake n (strTake n s) = strTake n s := by
  unfold strTake
  simp [List.take_take]

/-- `get_run` after `update_run_status` sees the updated row. -/
theorem get_run_update_run_status (db : DB) (runId status : String) (fin : Int)
    (dur : Option Int) (err : Option String) :
    get_run (update_run_status db runId status fin dur err) runId =
      (get_run db runId).map fun r =>
        if r.run_id = runId then
          { r with status := status, finished_at := some fin, duration_ms := dur
                   last_error := err.map (strTake 500) }
        else r := by
  unfold get_run update_run_status
  apply find?_through_map
  intro r
  by_cases hr : r.run_id = runId <;> simp [hr]

/-- C9 (amended): `start_run` returns the `run_id` normally in both
outcomes.  On success the Run is finalized `completed`; when the pipeline
raises, the `try/except` catches the exception, records the Run as
`failed` with the truncated error, and still falls through to
`return run_id` — no error is raised to the caller. -/
theorem start_run_returns_run_id (runId source : String) (t0 t1 : Int)
    (wf : Except String Unit) (db : DB) (hfresh : get_run db runId = none) :
    ∃ db' : DB, startRun runId source t0 t1 wf db = .ok (runId, db') ∧
      (∀ e, wf = .error e →
        (get_run db' runId).map (fun r => r.status) = some "failed" ∧
        (get_run db' runId).bind (fun r => r.last_error) = some (strTake 500 e)) ∧
      (wf = .ok () →
        (get_run db' runId).map (fun r => r.status) = some "completed") := by
  have hcreated : get_run (create_run db runId source t0) runId =
      some { run_id := runId, source := source, status := "running", created_at := t0 } := by
    unfold create_run
    rw [hfresh]
    simp only [Option.isSome_none, Bool.false_eq_true, if_false]
    unfold get_run at hfresh ⊢
    rw [List.find?_append, hfresh]
    simp
  unfold startRun
  refine ⟨_, rfl, ?_, ?_⟩
  · intro e he
    subst he
    rw [get_run_update_run_status, hcreated]
    constructor
    · simp
    · simp [strTake_idem]
  · intro hok
    subst hok
    rw [get_run_update_run_status, hcreated]
    simp

/-- C9 counterexample: with a failing pipeline the call still returns
`.ok` carrying the run id — no typed error is raised — while the Run is
recorded as `failed` with the error message. -/
theorem start_run_swallows_failure_counterexample :
    startRun "r1" "manual" 0 5 (Except.error "boom") {} =
      .ok ("r1",
        { runs := [{ run_id := "r1", source := "manual", status := "failed"
                     created_at := 0, finished_at := some 5, duration_ms := some 5000
                     last_error := some "boom" }] }) := by
  rfl

/-- Witness for the amended C9 theorem at a concrete failing workflow. -/
theorem start_run_returns_run_id_witness :
    ∃ db' : DB, startRun "r2" "manual" 0 5 (Except.error "x") {} = .ok ("r2", db') ∧
      (∀ e, (Except.error "x" : Except String Unit) = Except.error e →
        (get_run db' "r2").map (fun r => r.status) = some "failed" ∧
        (get_run db' "r2").bind (fun r => r.last_error) = some (strTake 500 e)) ∧
      ((Except.error "x" : Except String Unit) = Except.ok () →
        (get_run db' "r2").map (fun r => r.status) = some "completed") :=
  start_run_returns_run_id "r2" "manual" 0 5 (Except.error "x") {} (by decide)

/-- C7: the draft id created at pipeline completion is
`UUIDv5(NAMESPACE_URL, "draft_id:" + run_id)` — a deterministic function
of the run id — and draft creation is idempotent: `create_draft` returns
an existing row unchanged, so a completed run yields exactly one Draft
and re-running `_create_draft_record` for the same run id changes
nothing. -/
theorem draft_id_deterministic_and_idempotent :
    (∀ runId : String, draftIdOf runId = uuid5 NAMESPACE_URL ("draft_id:" ++ runId)) ∧
    (∀ (db : DB) (runId : String) (now : Int) (ttl : Nat) (mats : Materials)
      (plan : TopicPlan) (style : StyleProfile) (tp : ThreadPlan)
      (cands : DraftCandidates) (edited : EditedDraft) (report : PolicyReport)
      (thash : String),
      (createDraftRecord db runId now ttl mats plan style tp cands edited report thash).2 =
        draftIdOf runId) ∧
    (∀ (db : DB) (runId draftId thash : String) (c ex : Int) (st : String)
      (mats : Materials) (plan : TopicPlan) (style : StyleProfile) (tp : ThreadPlan)
      (cands : DraftCandidates) (edited : EditedDraft) (report : PolicyReport)
      (existing : DraftRow), get_draft db draftId = some existing →
      create_draft db runId draftId thash c ex st mats plan style tp cands edited report =
        (db, existing)) ∧
    (∀ (db : DB) (runId : String) (n1 n2 : Int) (t1 t2 : Nat)
      (m1 m2 : Materials) (p1 p2 : TopicPlan) (s1 s2 : StyleProfile)
      (tp1 tp2 : ThreadPlan) (c1 c2 : DraftCandidates) (e1 e2 : EditedDraft)
      (r1 r2 : PolicyReport) (th1 th2 : String),
      get_draft db (draftIdOf runId) = none →
      (((createDraftRecord db runId n1 t1 m1 p1 s1 tp1 c1 e1 r1 th1).1.drafts.filter
          fun d => d.id = draftIdOf runId).length = 1) ∧
      createDraftRecord (createDraftRecord db runId n1 t1 m1 p1 s1 tp1 c1 e1 r1 th1).1
          runId n2 t2 m2 p2 s2 tp2 c2 e2 r2 th2 =
        ((createDraftRecord db runId n1 t1 m1 p1 s1 tp1 c1 e1 r1 th1).1,
          draftIdOf runId)) := by
  refine ⟨fun _ => rfl, fun _ _ _ _ _ _ _ _ _ _ _ _ => rfl, ?_, ?_⟩
  · intro db runId draftId thash c ex st mats plan style tp cands edited report existing hget
    unfold create_draft
    rw [hget]
  · intro db runId n1 n2 t1 t2 m1 m2 p1 p2 s1 s2 tp1 tp2 c1 c2 e1 e2 r1 r2 th1 th2 hfresh
    have hnomem : ∀ d ∈ db.drafts, ¬(d.id = draftIdOf runId) := by
      intro d hd he
      unfold get_draft at hfresh
      have := List.find?_eq_none.mp hfresh d hd
      simp [he] at this
    have hstep : ∃ row : DraftRow, row.id = draftIdOf runId ∧
        (createDraftRecord db runId n1 t1 m1 p1 s1 tp1 c1 e1 r1 th1).1 =
          { db with drafts := db.drafts ++ [row]
                    policy_reports := db.policy_reports ++ [(draftIdOf runId, r1)] } := by
      simp only [createDraftRecord, create_draft, hfresh]
      exact ⟨_, rfl, rfl⟩
    obtain ⟨row, hrowid, hdb1⟩ := hstep
    have hget1 : get_draft (createDraftRecord db runId n1 t1 m1 p1 s1 tp1 c1 e1 r1 th1).1
        (draftIdOf runId) = some row := by
      rw [hdb1]
      unfold get_draft at hfresh ⊢
      simp only [List.find?_append, hfresh]
      simp [hrowid]
    constructor
    · rw [hdb1]
      simp only [List.filter_append]
      rw [List.filter_eq_nil_iff.mpr (by intro d hd; simpa using hnomem d hd)]
      simp [hrowid]
    · have hidem : ∀ db2 : DB, get_draft db2 (draftIdOf runId) = some row →
          createDraftRecord db2 runId n2 t2 m2 p2 s2 tp2 c2 e2 r2 th2 =
            (db2, draftIdOf runId) := by
        intro db2 hg
        simp only [createDraftRecord, hg]
      exact hidem _ hget1

set_option maxRecDepth 1000000 in
/-- Witness for C7: concrete creation in an empty database, and
idempotent lookup in `c1DB`; the concrete draft id matches CPython's
`uuid.uuid5(uuid.NAMESPACE_URL, "draft_id:run1")`. -/
theorem draft_id_deterministic_and_idempotent_witness :
    draftIdOf "run1" = "9e269480-d143-58e0-9e70-17970def6da5" ∧
    create_draft c1DB "r1" "d1" "th1" 0 1000 "pending" exMaterials exTopicPlan {}
        exThreadPlan { candidates := [] } exEdited exPassReport = (c1DB, exDraft) ∧
    (((createDraftRecord ({} : DB) "run1" 0 36 exMaterials exTopicPlan {} exThreadPlan
        { candidates := [] } exEdited exPassReport "th9").1.drafts.filter
        fun d => d.id = draftIdOf "run1").length = 1) := by
  refine ⟨by decide, ?_, ?_⟩
  · exact draft_id_deterministic_and_idempotent.2.2.1 c1DB "r1" "d1" "th1" 0 1000 "pending"
      exMaterials exTopicPlan {} exThreadPlan { candidates := [] } exEdited exPassReport
      exDraft (by decide)
  · exact (draft_id_deterministic_and_idempotent.2.2.2 {} "run1" 0 0 36 36 exMaterials
      exMaterials exTopicPlan exTopicPlan {} {} exThreadPlan exThreadPlan
      { candidates := [] } { candidates := [] } exEdited exEdited exPassReport exPassReport
      "th9" "th9" (by decide)).1

/-- C3 (amended): when `approve_draft` reaches the lease-acquisition step
and a PublishAttempt row for `(draft_id, attempt=1)` already exists with
`status = started`, the call returns `200 "Publish already in progress"`
— not 409 — and performs no further state mutation (the 409 codes are
reserved for a `failed` prior attempt and for the insert-race case where
the row cannot be re-read). -/
theorem approve_publish_in_progress (h : String → String) (bt : List String) (th : ℚ)
    (dr : Bool) (pt : String → Option String → Option String) (ow : String)
    (now : Int) (raw : String) (db : DB) (d : DraftRow) (tr : ActionTokenRow)
    (a : PublishAttemptRow)
    (hres : resolve_action_token db h "approve" raw now = (some d, some tr, "ok"))
    (hcons : d.token_consumed = false)
    (hexp : isExpiredVal now d.expires_at = false)
    (hstat : d.status = "pending")
    (hpol : (policyRun bt th (reconstructEdited d) d.materials
      (get_recent_posts db now 14 200) d.style_profile).action = "PASS")
    (hatt : get_publish_attempt db d.id 1 = some a)
    (ha : a.status = "started") :
    approveDraft h bt th dr pt ow now raw db = ((200, "Publish already in progress"), db) := by
  unfold approveDraft
  rw [hres]
  simp only [try_start_publish_attempt, hatt]
  simp [hcons, hexp, hstat, hpol, ha]

set_option maxRecDepth 1000000 in
/-- C3 counterexample: on a concrete database whose draft is pending with
PASS snapshots and whose `(draft_id, attempt=1)` row is `started`, the
approve call returns code 200, not the 409 the claim states. -/
theorem approve_publish_in_progress_counterexample :
    (approveDraft exHash [] (mkRat 3 5) true (fun _ _ => none) "ow" 100 "tok1" c3DB) =
      ((200, "Publish already in progress"), c3DB) ∧ (200 : Nat) ≠ 409 := by
  constructor
  · decide
  · decide

set_option maxRecDepth 1000000 in
/-- Witness for the amended C3 theorem at the concrete database `c3DB`. -/
theorem approve_publish_in_progress_witness :
    approveDraft exHash [] (mkRat 3 5) true (fun _ _ => none) "ow" 100 "tok1" c3DB =
      ((200, "Publish already in progress"), c3DB) :=
  approve_publish_in_progress exHash [] (mkRat 3 5) true (fun _ _ => none) "ow" 100 "tok1"
    c3DB exDraft exApproveToken
    { draft_id := "d1", attempt := 1, owner := some "prev", status := "started"
      created_at := 0 }
    (by decide) (by decide) (by decide) (by decide) (by decide) (by decide) (by decide)

/-- `Nat.toDigitsCore` prepends its output to the accumulator. -/
theorem toDigitsCore_append (b : Nat) :
    ∀ (f n : Nat) (ds1 ds2 : List Char),
      Nat.toDigitsCore b f n (ds1 ++ ds2) = Nat.toDigitsCore b f n ds1 ++ ds2 := by
  intro f
  induction f with
  | zero => intro n ds1 ds2; rfl
  | succ f ih =>
    intro n ds1 ds2
    unfold Nat.toDigitsCore
    by_cases hz : n / b = 0
    · simp [hz]
    · simp only [hz, if_false]
      have := ih (n / b) (Nat.digitChar (n % b) :: ds1) ds2
      simpa using this

/-- Digit characters decode back to their digit. -/
theorem digitChar_val (d : Nat) (hd : d < 10) : (Nat.digitChar d).toNat - 48 = d := by
  interval_cases d <;> rfl

/-- `digitsVal` of an appended digit. -/
theorem digitsVal_append_single (cs : List Char) (c : Char) :
    digitsVal (cs ++ [c]) = digitsVal cs * 10 + (c.toNat - 48) := by
  unfold digitsVal
  rw [List.foldl_append]
  rfl

/-- `digitsVal` inverts `Nat.toDigitsCore` with adequate fuel. -/
theorem toDigitsCore_val : ∀ f n, n < f → digitsVal (Nat.toDigitsCore 10 f n []) = n := by
  intro f
  induction f with
  | zero => intro n hn; omega
  | succ f ih =>
    intro n hn
    unfold Nat.toDigitsCore
    by_cases hz : n / 10 = 0
    · simp only [hz, if_true]
      have hlt : n % 10 < 10 := Nat.mod_lt _ (by omega)
      have : digitsVal [Nat.digitChar (n % 10)] = n % 10 := by
        unfold digitsVal
        simp [digitChar_val _ hlt]
      rw [this]
      omega
    · simp only [hz, if_false]
      have hshift : Nat.toDigitsCore 10 f (n / 10) [Nat.digitChar (n % 10)] =
          Nat.toDigitsCore 10 f (n / 10) [] ++ [Nat.digitChar (n % 10)] := by
        have := toDigitsCore_append 10 f (n / 10) [] [Nat.digitChar (n % 10)]
        simpa using this
      rw [hshift, digitsVal_append_single]
      have hdiv : n / 10 < f := by
        have h1 : n / 10 < n := Nat.div_lt_self (by omega) (by omega)
        omega
      rw [ih (n / 10) hdiv]
      have hlt : n % 10 < 10 := Nat.mod_lt _ (by omega)
      rw [digitChar_val _ hlt]
      omega

/-- `toString` on naturals is injective. -/
theorem natToString_inj {m n : Nat} (h : toString m = toString n) : m = n := by
  have hdata : (Nat.toDigits 10 m) = (Nat.toDigits 10 n) := by
    have hrepr : Nat.repr m = Nat.repr n := h
    unfold Nat.repr at hrepr
    have := congrArg String.data hrepr
    simpa [List.asString] using this
  have hm := toDigitsCore_val (m + 1) m (by omega)
  have hn := toDigitsCore_val (n + 1) n (by omega)
  unfold Nat.toDigits at hdata
  rw [hdata] at hm
  rw [hn] at hm
  omega

/-- Distinct positions give distinct synthesized dry-run tweet ids. -/
theorem dryTweetId_inj (draftId : String) {i j : Nat}
    (h : dryTweetId draftId i = dryTweetId draftId j) : i = j := by
  unfold dryTweetId at h
  have hdata := congrArg String.data h
  simp only [String.data_append] at hdata
  have hts := List.append_cancel_left hdata
  exact natToString_inj (congrArg String.mk hts)

/-- Distinct positions give distinct publish idempotency keys. -/
theorem publishKey_inj (draftId : String) {i j : Nat}
    (h : publishKey draftId i = publishKey draftId j) : i = j := by
  unfold publishKey at h
  have hdata := congrArg String.data h
  simp only [String.data_append] at hdata
  have hts := List.append_cancel_left hdata
  exact natToString_inj (congrArg String.mk hts)

/-- `insert_post_idempotent` appends the row when no unique constraint is
violated. -/
theorem insert_post_no_conflict (db : DB) (draftId : String) (pos : Nat)
    (tid content key : String) (now : Int)
    (hno : ∀ p ∈ db.posts, ¬(p.draft_id = draftId ∧ p.position = pos) ∧
      p.tweet_id ≠ tid ∧ p.publish_idempotency_key ≠ key) :
    insert_post_idempotent db draftId pos tid content key now =
      { db with posts := db.posts ++
        [{ draft_id := draftId, position := pos, tweet_id := tid, content := content
           posted_at := now, publish_idempotency_key := key }] } := by
  unfold insert_post_idempotent
  rw [if_neg]
  intro hany
  rw [List.any_eq_true] at hany
  obtain ⟨p, hp, hcond⟩ := hany
  have := hno p hp
  rcases of_decide_eq_true hcond with h1 | h2 | h3
  · exact this.1 h1
  · exact this.2.1 h2
  · exact this.2.2 h3

/-- The dry-run publish loop: with no pre-existing posts of the draft and
no colliding synthesized keys, it persists exactly one Post per remaining
position and returns the synthesized ids in order. -/
theorem publishLoop_dry (existing : Nat → Option String) (draftId : String)
    (rc : Bool) (pt : String → Option String → Option String) (now : Int)
    (hex : ∀ i, existing i = none) :
    ∀ (tweets : List String) (idx : Nat) (reply : Option String) (ids : List String)
      (db : DB),
      (∀ p ∈ db.posts, ∀ i, idx ≤ i →
        ¬(p.draft_id = draftId ∧ p.position = i) ∧ p.tweet_id ≠ dryTweetId draftId i ∧
          p.publish_idempotency_key ≠ publishKey draftId i) →
      publishLoop existing draftId true rc pt now tweets idx reply ids db =
        (.ok (ids ++ (tweets.enumFrom idx).map fun it => dryTweetId draftId it.1),
         { db with posts := db.posts ++ (tweets.enumFrom idx).map (dryPostRow draftId now) }) := by
  intro tweets
  induction tweets with
  | nil =>
    intro idx reply ids db hconf
    simp [publishLoop]
  | cons text rest ih =>
    intro idx reply ids db hconf
    unfold publishLoop
    rw [hex idx]
    have hrow : insert_post_idempotent db draftId idx
        ("dry_" ++ strTake 8 draftId ++ "_" ++ toString idx) text
        (draftId ++ ":" ++ toString idx) now =
        { db with posts := db.posts ++ [dryPostRow draftId now (idx, text)] } := by
      exact insert_post_no_conflict db draftId idx _ text _ now fun p hp =>
        hconf p hp idx (Nat.le_refl idx)
    simp only [if_true]
    rw [hrow]
    have hconf' : ∀ p ∈ ({ db with posts := db.posts ++ [dryPostRow draftId now (idx, text)] } : DB).posts,
        ∀ i, idx + 1 ≤ i →
        ¬(p.draft_id = draftId ∧ p.position = i) ∧ p.tweet_id ≠ dryTweetId draftId i ∧
          p.publish_idempotency_key ≠ publishKey draftId i := by
      intro p hp i hi
      simp only [List.mem_append, List.mem_singleton] at hp
      rcases hp with hold | hnew
      · exact hconf p hold i (by omega)
      · subst hnew
        refine ⟨?_, ?_, ?_⟩
        · intro hc
          have : idx = i := hc.2
          omega
        · intro hc
          have := dryTweetId_inj draftId hc
          omega
        · intro hc
          have := publishKey_inj draftId hc
          omega
    have hrec := ih (idx + 1) (some ("dry_" ++ strTake 8 draftId ++ "_" ++ toString idx))
      (ids ++ ["dry_" ++ strTake 8 draftId ++ "_" ++ toString idx])
      { db with posts := db.posts ++ [dryPostRow draftId now (idx, text)] } hconf'
    rw [hrec]
    simp [List.enumFrom, dryTweetId, dryPostRow]

/-- `consume_action_token` changes only the `action_tokens` table. -/
theorem consume_action_token_fields (db : DB) (t : ActionTokenRow) (now : Int) :
    (consume_action_token db t now).drafts = db.drafts ∧
    (consume_action_token db t now).posts = db.posts ∧
    (consume_action_token db t now).publish_attempts = db.publish_attempts := by
  unfold consume_action_token
  split <;> exact ⟨rfl, rfl, rfl⟩

/-- `get_draft` through a key-preserving `updateDraft`. -/
theorem get_draft_updateDraft (db : DB) (i : String) (f : DraftRow → DraftRow)
    (hpres : ∀ d, (f d).id = d.id) :
    get_draft (updateDraft db i f) i = (get_draft db i).map fun d => if d.id = i then f d else d := by
  unfold get_draft updateDraft
  apply find?_through_map
  intro r
  by_cases hr : r.id = i <;> simp [hr, hpres r]

/-- A draft with no posts has no existing thread posts. -/
theorem existingThreadPost_none (db : DB) (draftId : String)
    (hnone : ∀ p ∈ db.posts, p.draft_id ≠ draftId) :
    ∀ i, existingThreadPost db draftId i = none := by
  intro i
  unfold existingThreadPost
  have : db.posts.filter (fun p => decide (p.draft_id = draftId)) = [] := by
    rw [List.filter_eq_nil_iff]
    intro p hp
    simpa using hnone p hp
  rw [this]
  rfl

/-- `get_publish_attempt` after a fresh `try_start_publish_attempt`
insert. -/
theorem get_publish_attempt_after_insert (db : DB) (draftId : String)
    (owner : Option String) (now : Int)
    (hatt : get_publish_attempt db draftId 1 = none) :
    try_start_publish_attempt db draftId 1 owner now =
      ((true, some { draft_id := draftId, attempt := 1, owner := owner
                     status := "started", created_at := now }),
       { db with publish_attempts := db.publish_attempts ++
          [{ draft_id := draftId, attempt := 1, owner := owner
             status := "started", created_at := now }] }) ∧
    get_publish_attempt
      { db with publish_attempts := db.publish_attempts ++
          [{ draft_id := draftId, attempt := 1, owner := owner
             status := "started", created_at := now }] } draftId 1 =
      some { draft_id := draftId, attempt := 1, owner := owner
             status := "started", created_at := now } := by
  constructor
  · unfold try_start_publish_attempt
    rw [hatt]
  · unfold get_publish_attempt at hatt ⊢
    simp only [List.find?_append, hatt]
    simp

/-- `get_publish_attempt` through `mark_publish_attempt_completed`. -/
theorem get_publish_attempt_mark_completed (db : DB) (draftId : String) (now : Int) :
    get_publish_attempt (mark_publish_attempt_completed db draftId 1 now) draftId 1 =
      (get_publish_attempt db draftId 1).map fun a =>
        if a.draft_id = draftId ∧ a.attempt = 1 then
          { a with status := "completed", completed_at := some now, last_error := none }
        else a := by
  unfold get_publish_attempt mark_publish_attempt_completed
  apply find?_through_map
  intro r
  by_cases hr : r.draft_id = draftId ∧ r.attempt = 1 <;> simp [hr]

/-- `get_draft` depends only on the drafts table. -/
theorem get_draft_congr (db db' : DB) (x : String) (h : db.drafts = db'.drafts) :
    get_draft db x = get_draft db' x := by
  unfold get_draft
  rw [h]

/-- `get_publish_attempt` depends only on the attempts table. -/
theorem get_publish_attempt_congr (db db' : DB) (x : String) (n : Nat)
    (h : db.publish_attempts = db'.publish_attempts) :
    get_publish_attempt db x n = get_publish_attempt db' x n := by
  unfold get_publish_attempt
  rw [h]


/-- Record-update and mutator projections used to normalize the approve
flow: none of these operations touch the drafts table. -/
theorem get_draft_set_posts (dbx : DB) (ps : List PostRow) (x : String) :
    get_draft { dbx with posts := ps } x = get_draft dbx x := rfl

/-- `consume_action_token` does not touch the drafts table. -/
theorem get_draft_consume (dbx : DB) (t : ActionTokenRow) (n : Int) (x : String) :
    get_draft (consume_action_token dbx t n) x = get_draft dbx x := by
  unfold consume_action_token
  split <;> rfl

/-- Appending a publish attempt does not touch the drafts table. -/
theorem get_draft_set_attempts (dbx : DB) (as : List PublishAttemptRow) (x : String) :
    get_draft { dbx with publish_attempts := as } x = get_draft dbx x := rfl

/-- Setting the posts table does not touch the attempts table. -/
theorem get_publish_attempt_set_posts (dbx : DB) (ps : List PostRow) (x : String) (n : Nat) :
    get_publish_attempt { dbx with posts := ps } x n = get_publish_attempt dbx x n := rfl

/-- `consume_action_token` does not touch the attempts table. -/
theorem get_publish_attempt_consume (dbx : DB) (t : ActionTokenRow) (tn : Int)
    (x : String) (n : Nat) :
    get_publish_attempt (consume_action_token dbx t tn) x n =
      get_publish_attempt dbx x n := by
  unfold consume_action_token
  split <;> rfl

/-- `updateDraft` does not touch the attempts table. -/
theorem get_publish_attempt_updateDraft (dbx : DB) (i : String) (f : DraftRow → DraftRow)
    (x : String) (n : Nat) :
    get_publish_attempt (updateDraft dbx i f) x n = get_publish_attempt dbx x n := rfl

/-- A freshly appended attempt row is found by its key. -/
theorem get_publish_attempt_append_fresh (dbx : DB) (did : String)
    (row : PublishAttemptRow) (hatt : get_publish_attempt dbx did 1 = none)
    (hrow : row.draft_id = did ∧ row.attempt = 1) :
    get_publish_attempt { dbx with publish_attempts := dbx.publish_attempts ++ [row] }
      did 1 = some row := by
  unfold get_publish_attempt at hatt ⊢
  simp only [List.find?_append, hatt]
  simp [hrow.1, hrow.2]

/-- `consume_action_token` leaves the posts table unchanged. -/
theorem consume_posts (dbx : DB) (t : ActionTokenRow) (n : Int) :
    (consume_action_token dbx t n).posts = dbx.posts := by
  unfold consume_action_token
  split <;> rfl

/-- `updateDraft` leaves the posts table unchanged. -/
theorem updateDraft_posts (dbx : DB) (i : String) (f : DraftRow → DraftRow) :
    (updateDraft dbx i f).posts = dbx.posts := rfl

/-- Appending a publish attempt leaves the posts table unchanged. -/
theorem set_attempts_posts (dbx : DB) (as : List PublishAttemptRow) :
    ({ dbx with publish_attempts := as } : DB).posts = dbx.posts := rfl

/-- The dry-run publish phase over any database holding no posts of the
draft and no colliding synthesized ids: one Post per position, ids in
order. -/
theorem publisher_dry_phase (db3 : DB) (did : String) (tweets : List String)
    (rc : Bool) (pt : String → Option String → Option String) (now : Int)
    (hp : ∀ p ∈ db3.posts, p.draft_id ≠ did ∧
      (∀ i : Nat, p.tweet_id ≠ dryTweetId did i ∧
        p.publish_idempotency_key ≠ publishKey did i)) :
    publisherRun db3 { draft_id := did, tweets := tweets, dry_run := true
                       reply_chain := rc } true pt now =
      (.ok ((tweets.enumFrom 1).map fun it => dryTweetId did it.1),
       { db3 with posts := db3.posts ++ (tweets.enumFrom 1).map (dryPostRow did now) }) := by
  unfold publisherRun
  have hex : ∀ i, existingThreadPost db3 did i = none :=
    existingThreadPost_none db3 did fun p hpm => (hp p hpm).1
  have hconf : ∀ p ∈ db3.posts, ∀ i, 1 ≤ i →
      ¬(p.draft_id = did ∧ p.position = i) ∧ p.tweet_id ≠ dryTweetId did i ∧
        p.publish_idempotency_key ≠ publishKey did i := by
    intro p hpm i _
    exact ⟨fun hc => (hp p hpm).1 hc.1, ((hp p hpm).2 i).1, ((hp p hpm).2 i).2⟩
  have := publishLoop_dry (existingThreadPost db3 did) did rc pt now hex tweets 1 none [] db3 hconf
  simp only [Bool.or_self]
  rw [this]
  simp

/-- `mark_publish_attempt_completed` does not touch the drafts table. -/
theorem get_draft_mark_attempt_completed (dbx : DB) (x : String) (n : Nat) (t : Int)
    (y : String) :
    get_draft (mark_publish_attempt_completed dbx x n t) y = get_draft dbx y := rfl

/-- C1: approving a pending, unexpired draft whose stored snapshots yield
a PASS verdict completes a dry-run publication (`DRY_RUN = true`): the
call returns 200; each tweet position `i` (1-based) gains exactly one
Post row carrying `publish_idempotency_key = draft_id ++ ":" ++ i` and
the synthesized dry-run tweet id `dry_<first-8-of-draft-id>_<i>`; the
draft ends in status `dry_run_posted` with its token consumed; and the
publish attempt is `completed`.  (The non-dry-run branch differs only in
calling the downstream poster and in the `posted` status constant —
see the `if dryRun` in `approveDraft` and `publishLoop`.) -/
theorem approve_dry_run_publishes (h : String → String) (bt : List String) (th : ℚ)
    (pt : String → Option String → Option String) (ow : String) (now : Int)
    (raw : String) (db : DB) (d : DraftRow) (tr : ActionTokenRow)
    (hres : resolve_action_token db h "approve" raw now = (some d, some tr, "ok"))
    (hgd : get_draft db d.id = some d)
    (hcons : d.token_consumed = false)
    (hexp : isExpiredVal now d.expires_at = false)
    (hstat : d.status = "pending")
    (hpol : (policyRun bt th (reconstructEdited d) d.materials
      (get_recent_posts db now 14 200) d.style_profile).action = "PASS")
    (hatt : get_publish_attempt db d.id 1 = none)
    (hposts : ∀ p ∈ db.posts, p.draft_id ≠ d.id ∧
      (∀ i : Nat, p.tweet_id ≠ dryTweetId d.id i ∧
        p.publish_idempotency_key ≠ publishKey d.id i)) :
    (approveDraft h bt th true pt ow now raw db).1 =
      (200, "Published: " ++ pyListRepr
        (((composeTweets (reconstructEdited d)).enumFrom 1).map
          fun it => dryTweetId d.id it.1)) ∧
    (approveDraft h bt th true pt ow now raw db).2.posts =
      db.posts ++ ((composeTweets (reconstructEdited d)).enumFrom 1).map
        (dryPostRow d.id now) ∧
    get_draft (approveDraft h bt th true pt ow now raw db).2 d.id =
      some { d with status := "dry_run_posted", token_consumed := true
                    consumed_at := some now
                    published_tweet_ids := some
                      (((composeTweets (reconstructEdited d)).enumFrom 1).map
                        fun it => dryTweetId d.id it.1)
                    approval_idempotency_key := some ("approve:" ++ d.id) } ∧
    get_publish_attempt (approveDraft h bt th true pt ow now raw db).2 d.id 1 =
      some { draft_id := d.id, attempt := 1, owner := some ow, status := "completed"
             created_at := now, completed_at := some now, last_error := none } := by
  have hgdu := fun dbx => get_draft_updateDraft dbx d.id
    (fun dd => { dd with status := "publishing" }) (fun _ => rfl)
  have happ := get_publish_attempt_append_fresh db d.id
    { draft_id := d.id, attempt := 1, owner := some ow
      status := "started", created_at := now } hatt ⟨rfl, rfl⟩
  have hcalc : approveDraft h bt th true pt ow now raw db =
      ((200, "Published: " ++ pyListRepr
        (((composeTweets (reconstructEdited d)).enumFrom 1).map
          fun it => dryTweetId d.id it.1)),
       mark_publish_attempt_completed
        (updateDraft
          { consume_action_token
              (updateDraft
                { db with publish_attempts := db.publish_attempts ++
                    [{ draft_id := d.id, attempt := 1, owner := some ow
                       status := "started", created_at := now }] }
                d.id fun dd => { dd with status := "publishing" }) tr now with
            posts := db.posts ++ ((composeTweets (reconstructEdited d)).enumFrom 1).map
              (dryPostRow d.id now) }
          d.id
          (markDraftConsumed now "dry_run_posted"
            (some (((composeTweets (reconstructEdited d)).enumFrom 1).map
              fun it => dryTweetId d.id it.1))
            (some ("approve:" ++ d.id))))
        d.id 1 now) := by
    unfold approveDraft
    rw [hres]
    simp only [try_start_publish_attempt, hatt]
    simp [hcons, hexp, hstat, hpol]
    rw [publisher_dry_phase]
    case hp =>
      intro p hp
      rw [consume_posts] at hp
      exact hposts p hp
    simp only [consume_posts, updateDraft_posts, set_attempts_posts]
    simp only [get_draft_set_posts, get_draft_consume, hgdu, get_draft_set_attempts, hgd,
      get_publish_attempt_set_posts, get_publish_attempt_consume,
      get_publish_attempt_updateDraft, happ, Option.map_some', Option.isSome_some, if_true,
      eq_self_iff_true, ite_true]
  refine ⟨by rw [hcalc], by rw [hcalc]; rfl, ?_, ?_⟩
  · rw [hcalc]
    have hgdu2 := fun dbx => get_draft_updateDraft dbx d.id
      (markDraftConsumed now "dry_run_posted"
        (some (((composeTweets (reconstructEdited d)).enumFrom 1).map
          fun it => dryTweetId d.id it.1))
        (some ("approve:" ++ d.id))) (fun _ => rfl)
    simp only [get_draft_mark_attempt_completed, hgdu2, get_draft_set_posts,
      get_draft_consume, hgdu, get_draft_set_attempts, hgd, Option.map_some',
      markDraftConsumed, eq_self_iff_true, ite_true]
  · rw [hcalc]
    simp only [get_publish_attempt_mark_completed, get_publish_attempt_updateDraft,
      get_publish_attempt_set_posts, get_publish_attempt_consume, happ, Option.map_some',
      eq_self_iff_true, and_self, ite_true]

set_option maxRecDepth 1000000 in
/-- Witness for C1 at the concrete database `c1DB` (scenario S1): one
tweet, one Post with key `d1:1` and id `dry_d1_1`, status
`dry_run_posted`, attempt completed. -/
theorem approve_dry_run_publishes_witness :
    (approveDraft exHash [] (mkRat 3 5) true (fun _ _ => none) "ow" 100 "tok1" c1DB).1 =
      (200, "Published: " ++ pyListRepr
        (((composeTweets (reconstructEdited exDraft)).enumFrom 1).map
          fun it => dryTweetId exDraft.id it.1)) ∧
    (approveDraft exHash [] (mkRat 3 5) true (fun _ _ => none) "ow" 100 "tok1" c1DB).2.posts =
      c1DB.posts ++ ((composeTweets (reconstructEdited exDraft)).enumFrom 1).map
        (dryPostRow exDraft.id 100) ∧
    get_draft (approveDraft exHash [] (mkRat 3 5) true (fun _ _ => none) "ow" 100 "tok1"
        c1DB).2 exDraft.id =
      some { exDraft with status := "dry_run_posted", token_consumed := true
                          consumed_at := some 100
                          published_tweet_ids := some
                            (((composeTweets (reconstructEdited exDraft)).enumFrom 1).map
                              fun it => dryTweetId exDraft.id it.1)
                          approval_idempotency_key := some ("approve:" ++ exDraft.id) } ∧
    get_publish_attempt (approveDraft exHash [] (mkRat 3 5) true (fun _ _ => none) "ow" 100
        "tok1" c1DB).2 exDraft.id 1 =
      some { draft_id := exDraft.id, attempt := 1, owner := some "ow", status := "completed"
             created_at := 100, completed_at := some 100, last_error := none } :=
  approve_dry_run_publishes exHash [] (mkRat 3 5) (fun _ _ => none) "ow" 100 "tok1" c1DB
    exDraft exApproveToken (by decide) (by decide) (by decide) (by decide) (by decide)
    (by decide) (by decide) (by simp [c1DB])

/-- C4: every operation that mutates a Draft preserves the consumption
invariant `token_consumed = true ⇔ consumed_at is set ⇔ status ∈ {posted,
dry_run_posted, skipped}`, under the guards the orchestrator enforces at
each call site: creation inserts with a non-terminal status and an
unconsumed token; `mark_draft_consumed` is invoked with `posted` or
`dry_run_posted` (approve/publish success); `mark_draft_skipped`
establishes the invariant unconditionally; `update_draft_texts` (edit)
touches none of the three fields; the `publishing` and `error` status
writes (publish start / publish failure) happen on a draft whose token is
not consumed; `update_draft_policy_report` (edit/regenerate) runs only on
unconsumed drafts; and the whole `skip_draft` flow preserves the invariant
for every row of the database. -/
theorem draft_mutators_preserve_invariant (db : DB) (h : String → String)
    (runId draftId tokenHash raw : String) (createdAt expiresAt now : Int)
    (status newStatus err : String) (materials : Materials) (plan : TopicPlan)
    (style : StyleProfile) (threadPlan : ThreadPlan) (cands : DraftCandidates)
    (edited : EditedDraft) (report rep2 : PolicyReport) (ids : Option (List String))
    (akey : Option String) (texts : List String) (d : DraftRow)
    (hall : ∀ dd ∈ db.drafts, draftInvariant dd)
    (hcreate : status ∉ terminalStatuses)
    (hmark : newStatus = "posted" ∨ newStatus = "dry_run_posted")
    (hinv : draftInvariant d)
    (hguard : d.token_consumed = false) :
    (∀ dd ∈ (create_draft db runId draftId tokenHash createdAt expiresAt status
        materials plan style threadPlan cands edited report).1.drafts, draftInvariant dd) ∧
    draftInvariant (markDraftConsumed now newStatus ids akey d) ∧
    draftInvariant (markDraftSkipped now d) ∧
    draftInvariant (updateDraftTexts texts d) ∧
    draftInvariant { d with status := "publishing" } ∧
    draftInvariant { d with status := "error", last_error := some err } ∧
    ((∀ dd ∈ db.drafts, dd.id = draftId → dd.token_consumed = false) →
      ∀ dd ∈ (update_draft_policy_report db draftId rep2).drafts, draftInvariant dd) ∧
    (∀ dd ∈ (skipDraft h now raw db).2.drafts, draftInvariant dd) := by
  have hcaOf : ∀ e : DraftRow, draftInvariant e → e.token_consumed = false →
      e.consumed_at = none := by
    intro e he hf
    cases hc : e.consumed_at with
    | none => rfl
    | some t =>
      have ht := he.1.mpr (by simp [hc])
      rw [hf] at ht
      exact Bool.noConfusion ht
  have hca : d.consumed_at = none := hcaOf d hinv hguard
  refine ⟨?_, ?_, ?_, ?_, ?_, ?_, ?_, ?_⟩
  · intro dd hdd
    unfold create_draft at hdd
    cases hg : get_draft db draftId with
    | some existing =>
      rw [hg] at hdd
      exact hall dd hdd
    | none =>
      rw [hg] at hdd
      simp only [List.mem_append, List.mem_singleton] at hdd
      rcases hdd with hdd | hdd
      · exact hall dd hdd
      · subst hdd
        exact ⟨Iff.rfl, ⟨fun hf => Bool.noConfusion hf, fun hm => absurd hm hcreate⟩⟩
  · rcases hmark with rfl | rfl <;>
      simp [draftInvariant, markDraftConsumed, terminalStatuses]
  · simp [draftInvariant, markDraftSkipped, terminalStatuses]
  · unfold updateDraftTexts
    split <;> exact hinv
  · simp [draftInvariant, hguard, hca, terminalStatuses]
  · simp [draftInvariant, hguard, hca, terminalStatuses]
  · intro hg2 dd hdd
    unfold update_draft_policy_report updateDraft at hdd
    simp only [List.mem_map] at hdd
    obtain ⟨dd0, hdd0, rfl⟩ := hdd
    by_cases hid : dd0.id = draftId
    · rw [if_pos hid]
      have hg0 := hg2 dd0 hdd0 hid
      have hca0 := hcaOf dd0 (hall dd0 hdd0) hg0
      by_cases hact : rep2.action = "PASS" <;>
        simp [draftInvariant, hact, hg0, hca0, terminalStatuses]
    · rw [if_neg hid]
      exact hall dd0 hdd0
  · intro dd hdd
    unfold skipDraft at hdd
    rcases hr : resolve_action_token db h "skip" raw now with ⟨dopt, topt, ts⟩
    rw [hr] at hdd
    dsimp only [] at hdd
    by_cases h1 : ts = "not_found"
    · rw [if_pos h1] at hdd; exact hall dd hdd
    rw [if_neg h1] at hdd
    by_cases h2 : ts = "expired"
    · rw [if_pos h2] at hdd; exact hall dd hdd
    rw [if_neg h2] at hdd
    by_cases h3 : ts = "consumed"
    · rw [if_pos h3] at hdd; exact hall dd hdd
    rw [if_neg h3] at hdd
    cases dopt with
    | none => cases topt <;> exact hall dd hdd
    | some draft =>
      cases topt with
      | none => exact hall dd hdd
      | some tokenRow =>
        dsimp only [] at hdd
        by_cases h4 : isExpiredVal now draft.expires_at = true
        · rw [if_pos h4] at hdd; exact hall dd hdd
        rw [if_neg h4] at hdd
        by_cases h5 : draft.token_consumed = true
        · rw [if_pos h5] at hdd; exact hall dd hdd
        rw [if_neg h5] at hdd
        simp only [(consume_action_token_fields _ _ _).1] at hdd
        unfold updateDraft at hdd
        simp only [List.mem_map] at hdd
        obtain ⟨dd0, hdd0, rfl⟩ := hdd
        by_cases hid : dd0.id = draft.id
        · rw [if_pos hid]
          simp [draftInvariant, markDraftSkipped, terminalStatuses]
        · rw [if_neg hid]
          exact hall dd0 hdd0

/-- Witness for C4 at the concrete database `c1DB` and draft `exDraft`. -/
theorem draft_mutators_preserve_invariant_witness :
    (∀ dd ∈ (create_draft c1DB "r" "dX" "t" 0 1000 "pending" exMaterials exTopicPlan {}
        exThreadPlan { candidates := [] } exEdited exPassReport).1.drafts, draftInvariant dd) ∧
    draftInvariant (markDraftConsumed 100 "posted" none none exDraft) ∧
    draftInvariant (markDraftSkipped 100 exDraft) ∧
    draftInvariant (updateDraftTexts ["x"] exDraft) ∧
    draftInvariant { exDraft with status := "publishing" } ∧
    draftInvariant { exDraft with status := "error", last_error := some "boom" } ∧
    ((∀ dd ∈ c1DB.drafts, dd.id = "dX" → dd.token_consumed = false) →
      ∀ dd ∈ (update_draft_policy_report c1DB "dX" exPassReport).drafts, draftInvariant dd) ∧
    (∀ dd ∈ (skipDraft exHash 100 "tokZ" c1DB).2.drafts, draftInvariant dd) :=
  draft_mutators_preserve_invariant c1DB exHash "r" "dX" "t" "tokZ" 0 1000 100
    "pending" "posted" "boom" exMaterials exTopicPlan {} exThreadPlan { candidates := [] }
    exEdited exPassReport exPassReport none none ["x"] exDraft
    (by decide) (by decide) (by decide) (by decide) (by decide)
